import Mathlib

set_option autoImplicit false

/-!
Shallow embedding of the cgpu Vulkan abstraction layer of gatling
(src/cgpu/src/cgpu.c), covering the operations referenced by the
specification: resource-binding updates, pipeline / device / image /
command-buffer creation, the per-dispatch image-layout state tracker and
the explicit pipeline-barrier command.

Modelling conventions:
* native Vulkan objects are identified by plain `Nat` ids;
* results of fallible native calls are oracle parameters of type `VkResult`;
* the commands a function records into a command buffer are returned as an
  explicit trace (`List VkRecordedCmd`), mirroring the `vkCmd*` calls made;
* the global resource stores are association lists from handles to payloads.
-/

namespace Cgpu

/-- Outcome of a native Vulkan call, reduced to success vs failure. -/
inductive VkResult where
  | VK_SUCCESS
  | VK_ERROR
deriving DecidableEq, Repr

/-- Result codes of the cgpu API (the constructors used by the embedded
operations, named as in cgpu.h). -/
inductive CgpuResult where
  | CGPU_OK
  | CGPU_FAIL_INVALID_HANDLE
  | CGPU_FAIL_MAX_PHYSICAL_DEVICES_REACHED
  | CGPU_FAIL_NO_DEVICE_AT_INDEX
  | CGPU_FAIL_VK_VERSION_NOT_SUPPORTED
  | CGPU_FAIL_FEATURE_REQUIREMENTS_NOT_MET
  | CGPU_FAIL_MAX_DEVICE_EXTENSIONS_REACHED
  | CGPU_FAIL_MAX_QUEUE_FAMILIES_REACHED
  | CGPU_FAIL_DEVICE_HAS_NO_COMPUTE_QUEUE_FAMILY
  | CGPU_FAIL_CAN_NOT_CREATE_LOGICAL_DEVICE
  | CGPU_FAIL_CAN_NOT_CREATE_COMMAND_POOL
  | CGPU_FAIL_UNABLE_TO_CREATE_QUERY_POOL
  | CGPU_FAIL_UNABLE_TO_INITIALIZE_VMA
  | CGPU_FAIL_UNABLE_TO_CREATE_BUFFER
  | CGPU_FAIL_UNABLE_TO_CREATE_IMAGE
  | CGPU_FAIL_UNABLE_TO_CREATE_SAMPLER
  | CGPU_FAIL_UNABLE_TO_CREATE_SHADER_MODULE
  | CGPU_FAIL_UNABLE_TO_REFLECT_SHADER
  | CGPU_FAIL_UNABLE_TO_CREATE_DESCRIPTOR_LAYOUT
  | CGPU_FAIL_UNABLE_TO_CREATE_PIPELINE_LAYOUT
  | CGPU_FAIL_UNABLE_TO_CREATE_COMPUTE_PIPELINE
  | CGPU_FAIL_UNABLE_TO_CREATE_DESCRIPTOR_POOL
  | CGPU_FAIL_UNABLE_TO_ALLOCATE_DESCRIPTOR_SET
  | CGPU_FAIL_UNABLE_TO_ALLOCATE_COMMAND_BUFFER
  | CGPU_FAIL_BUFFER_OFFSET_NOT_ALIGNED
  | CGPU_FAIL_DESCRIPTOR_SET_BINDING_MISMATCH
  | CGPU_FAIL_UNABLE_TO_CREATE_FENCE
deriving DecidableEq, Repr

/-- Vulkan image layouts used by the embedded operations. -/
inductive VkImageLayout where
  | VK_IMAGE_LAYOUT_UNDEFINED
  | VK_IMAGE_LAYOUT_GENERAL
  | VK_IMAGE_LAYOUT_SHADER_READ_ONLY_OPTIMAL
deriving DecidableEq, Repr

/-- Vulkan image tiling modes. -/
inductive VkImageTiling where
  | VK_IMAGE_TILING_OPTIMAL
  | VK_IMAGE_TILING_LINEAR
deriving DecidableEq, Repr

/-- Vulkan descriptor types; `VK_DESCRIPTOR_TYPE_UNIFORM_BUFFER` stands for a
descriptor type the pipeline-creation tally does not recognise. -/
inductive VkDescriptorType where
  | VK_DESCRIPTOR_TYPE_STORAGE_BUFFER
  | VK_DESCRIPTOR_TYPE_STORAGE_IMAGE
  | VK_DESCRIPTOR_TYPE_SAMPLED_IMAGE
  | VK_DESCRIPTOR_TYPE_COMBINED_IMAGE_SAMPLER
  | VK_DESCRIPTOR_TYPE_SAMPLER
  | VK_DESCRIPTOR_TYPE_UNIFORM_BUFFER
deriving DecidableEq, Repr

/-- Invalid/unset handle sentinel. -/
def CGPU_INVALID_HANDLE : Nat := 0

/-- Whole-size sentinel (`UINT64_MAX`). -/
def CGPU_WHOLE_SIZE : Nat := 18446744073709551615

def MAX_PHYSICAL_DEVICES : Nat := 32
def MAX_DEVICE_EXTENSIONS : Nat := 1024
def MAX_QUEUE_FAMILIES : Nat := 64
def MAX_DESCRIPTOR_SET_LAYOUT_BINDINGS : Nat := 128

/- Vulkan bit-flag constants (numeric values from vulkan_core.h). -/

def VK_ACCESS_UNIFORM_READ_BIT : Nat := 8
def VK_ACCESS_SHADER_READ_BIT : Nat := 32
def VK_ACCESS_SHADER_WRITE_BIT : Nat := 64
def VK_ACCESS_TRANSFER_READ_BIT : Nat := 2048
def VK_ACCESS_TRANSFER_WRITE_BIT : Nat := 4096
def VK_ACCESS_HOST_READ_BIT : Nat := 8192
def VK_ACCESS_HOST_WRITE_BIT : Nat := 16384
def VK_ACCESS_MEMORY_READ_BIT : Nat := 32768
def VK_ACCESS_MEMORY_WRITE_BIT : Nat := 65536

def VK_QUEUE_COMPUTE_BIT : Nat := 2
def VK_QUEUE_TRANSFER_BIT : Nat := 4
def VK_SUBGROUP_FEATURE_BASIC_BIT : Nat := 1
def VK_SUBGROUP_FEATURE_BALLOT_BIT : Nat := 8

def VK_PIPELINE_STAGE_COMPUTE_SHADER_BIT : Nat := 2048
def VK_PIPELINE_STAGE_TRANSFER_BIT : Nat := 4096
def VK_SHADER_STAGE_COMPUTE_BIT : Nat := 32

def VK_IMAGE_USAGE_TRANSFER_SRC_BIT : Nat := 1
def VK_IMAGE_USAGE_TRANSFER_DST_BIT : Nat := 2
def VK_IMAGE_USAGE_SAMPLED_BIT : Nat := 4
def VK_IMAGE_USAGE_STORAGE_BIT : Nat := 8

/-- Modelled from the spec: the abstract cgpu flag enumerations live in
cgpu.h, which is not under src/; the spec (§6) describes them as abstract
flag sets translated to native bits by fixed table lookups.  Distinct
single-bit values are assigned in declaration order; no embedded operation
depends on the concrete values. -/
def CGPU_MEMORY_ACCESS_FLAG_UNIFORM_READ : Nat := 1

def CGPU_MEMORY_ACCESS_FLAG_SHADER_READ : Nat := 2
def CGPU_MEMORY_ACCESS_FLAG_SHADER_WRITE : Nat := 4
def CGPU_MEMORY_ACCESS_FLAG_TRANSFER_READ : Nat := 8
def CGPU_MEMORY_ACCESS_FLAG_TRANSFER_WRITE : Nat := 16
def CGPU_MEMORY_ACCESS_FLAG_HOST_READ : Nat := 32
def CGPU_MEMORY_ACCESS_FLAG_HOST_WRITE : Nat := 64
def CGPU_MEMORY_ACCESS_FLAG_MEMORY_READ : Nat := 128
def CGPU_MEMORY_ACCESS_FLAG_MEMORY_WRITE : Nat := 256

def CGPU_IMAGE_USAGE_FLAG_TRANSFER_SRC : Nat := 1
def CGPU_IMAGE_USAGE_FLAG_TRANSFER_DST : Nat := 2
def CGPU_IMAGE_USAGE_FLAG_SAMPLED : Nat := 4
def CGPU_IMAGE_USAGE_FLAG_STORAGE : Nat := 8

/-- Modelled from the spec: the generic `resource_store` (resource_store.h and
resource_store.c are not under src/).  Spec §4.1: `allocateHandle` hands out a
fresh handle whose slot then resolves; `resolve` fails for handle 0, for
never-allocated handles and for freed handles; `free` makes the handle
unresolvable again.  Handles start at 1 so that 0 never resolves; the raw
(uninitialised) slot content a fresh allocation exposes is supplied by the
caller of `resource_store_create_handle`. -/
structure resource_store (α : Type) where
  slots : List (Nat × α)
  next : Nat
deriving DecidableEq, Repr

def resource_store_get {α : Type} (store : resource_store α) (handle : Nat) : Option α :=
  store.slots.lookup handle

def resource_store_create_handle {α : Type} (store : resource_store α) (uninit : α) :
    Nat × resource_store α :=
  (store.next, { slots := (store.next, uninit) :: store.slots, next := store.next + 1 })

def resource_store_free_handle {α : Type} (store : resource_store α) (handle : Nat) :
    resource_store α :=
  { store with slots := store.slots.filter (fun p => p.1 != handle) }

/-- Overwrite the payload of an existing slot (a `idata->field = v` write
through a resolved pointer). -/
def resource_store_set {α : Type} (store : resource_store α) (handle : Nat) (v : α) :
    resource_store α :=
  { store with slots := store.slots.map (fun p => if p.1 = handle then (handle, v) else p) }

/- Internal structures (cgpu.c lines 47-108).  Native Vulkan object fields
are carried as `Nat` ids; fields of the original structs that no embedded
operation reads (e.g. `VolkDeviceTable`, `VmaAllocation`) are omitted. -/

/-- Physical-device limits; of the many fields copied verbatim by
`cgpu_translate_physical_device_limits`, only the one read by the embedded
operations is carried. -/
structure cgpu_physical_device_limits where
  minStorageBufferOffsetAlignment : Nat
deriving DecidableEq, Repr

structure cgpu_idevice where
  logical_device : Nat
  physical_device : Nat
  compute_queue : Nat
  command_pool : Nat
  timestamp_pool : Nat
  sampler : Nat
  limits : cgpu_physical_device_limits
deriving DecidableEq, Repr

structure cgpu_ibuffer where
  buffer : Nat
  size : Nat
deriving DecidableEq, Repr

structure cgpu_iimage where
  image : Nat
  image_view : Nat
  size : Nat
  width : Nat
  height : Nat
  layout : VkImageLayout
  access_mask : Nat
deriving DecidableEq, Repr

/-- Modelled from the spec: `cgpu_shader_resource_image` is declared in
cgpu.h (not under src/); its fields are taken from their uses in cgpu.c
(`binding` and the `image` handle). -/
structure cgpu_shader_resource_image where
  binding : Nat
  image : Nat
deriving DecidableEq, Repr

/-- Modelled from the spec: `cgpu_shader_resource_buffer` is declared in
cgpu.h (not under src/); its fields are taken from their uses in cgpu.c
(`binding`, the `buffer` handle, `offset`, `size`). -/
structure cgpu_shader_resource_buffer where
  binding : Nat
  buffer : Nat
  offset : Nat
  size : Nat
deriving DecidableEq, Repr

/-- Modelled from the spec: `cgpu_shader_reflection_resource` is declared in
shader_reflection.h (not under src/); fields are taken from their uses in
cgpu.c (`binding`, `descriptor_type`, `read_access`, `write_access`). -/
structure cgpu_shader_reflection_resource where
  binding : Nat
  descriptor_type : VkDescriptorType
  read_access : Bool
  write_access : Bool
deriving DecidableEq, Repr

/-- Modelled from the spec: `cgpu_shader_reflection` is declared in
shader_reflection.h (not under src/); per spec §3 it records the entry-point
resource bindings and the total push-constant byte size.  The C pair
`resources`/`resource_count` is carried as a single list. -/
structure cgpu_shader_reflection where
  resources : List cgpu_shader_reflection_resource
  push_constants_size : Nat
deriving DecidableEq, Repr

structure cgpu_ishader where
  module : Nat
  reflection : cgpu_shader_reflection
deriving DecidableEq, Repr

/-- The first `image_resource_count` entries of the C array
`image_resources[MAX_DESCRIPTOR_SET_LAYOUT_BINDINGS]` are carried as a
list. -/
structure cgpu_ipipeline where
  pipeline : Nat
  layout : Nat
  descriptor_pool : Nat
  descriptor_set : Nat
  descriptor_set_layout : Nat
  image_resources : List cgpu_shader_resource_image
  shader : Nat
deriving DecidableEq, Repr

structure cgpu_icommand_buffer where
  command_buffer : Nat
  device : Nat
  pipeline : Nat
deriving DecidableEq, Repr

/- Handle resolution helpers (the CGPU_RESOLVE_HANDLE macro instances). -/

def cgpu_resolve_device (store : resource_store cgpu_idevice) (handle : Nat) :
    Option cgpu_idevice :=
  resource_store_get store handle

def cgpu_resolve_buffer (store : resource_store cgpu_ibuffer) (handle : Nat) :
    Option cgpu_ibuffer :=
  resource_store_get store handle

def cgpu_resolve_image (store : resource_store cgpu_iimage) (handle : Nat) :
    Option cgpu_iimage :=
  resource_store_get store handle

def cgpu_resolve_shader (store : resource_store cgpu_ishader) (handle : Nat) :
    Option cgpu_ishader :=
  resource_store_get store handle

def cgpu_resolve_pipeline (store : resource_store cgpu_ipipeline) (handle : Nat) :
    Option cgpu_ipipeline :=
  resource_store_get store handle

def cgpu_resolve_command_buffer (store : resource_store cgpu_icommand_buffer) (handle : Nat) :
    Option cgpu_icommand_buffer :=
  resource_store_get store handle

/-- cgpu.c lines 159-190: translate abstract memory-access flags to native
`VkAccessFlags` bits. -/
def cgpu_translate_access_flags (flags : Nat) : Nat :=
  let vk_flags : Nat := 0
  let vk_flags := if flags &&& CGPU_MEMORY_ACCESS_FLAG_UNIFORM_READ = CGPU_MEMORY_ACCESS_FLAG_UNIFORM_READ then vk_flags ||| VK_ACCESS_UNIFORM_READ_BIT else vk_flags
  let vk_flags := if flags &&& CGPU_MEMORY_ACCESS_FLAG_SHADER_READ = CGPU_MEMORY_ACCESS_FLAG_SHADER_READ then vk_flags ||| VK_ACCESS_SHADER_READ_BIT else vk_flags
  let vk_flags := if flags &&& CGPU_MEMORY_ACCESS_FLAG_SHADER_WRITE = CGPU_MEMORY_ACCESS_FLAG_SHADER_WRITE then vk_flags ||| VK_ACCESS_SHADER_WRITE_BIT else vk_flags
  let vk_flags := if flags &&& CGPU_MEMORY_ACCESS_FLAG_TRANSFER_READ = CGPU_MEMORY_ACCESS_FLAG_TRANSFER_READ then vk_flags ||| VK_ACCESS_TRANSFER_READ_BIT else vk_flags
  let vk_flags := if flags &&& CGPU_MEMORY_ACCESS_FLAG_TRANSFER_WRITE = CGPU_MEMORY_ACCESS_FLAG_TRANSFER_WRITE then vk_flags ||| VK_ACCESS_TRANSFER_WRITE_BIT else vk_flags
  let vk_flags := if flags &&& CGPU_MEMORY_ACCESS_FLAG_HOST_READ = CGPU_MEMORY_ACCESS_FLAG_HOST_READ then vk_flags ||| VK_ACCESS_HOST_READ_BIT else vk_flags
  let vk_flags := if flags &&& CGPU_MEMORY_ACCESS_FLAG_HOST_WRITE = CGPU_MEMORY_ACCESS_FLAG_HOST_WRITE then vk_flags ||| VK_ACCESS_HOST_WRITE_BIT else vk_flags
  let vk_flags := if flags &&& CGPU_MEMORY_ACCESS_FLAG_MEMORY_READ = CGPU_MEMORY_ACCESS_FLAG_MEMORY_READ then vk_flags ||| VK_ACCESS_MEMORY_READ_BIT else vk_flags
  let vk_flags := if flags &&& CGPU_MEMORY_ACCESS_FLAG_MEMORY_WRITE = CGPU_MEMORY_ACCESS_FLAG_MEMORY_WRITE then vk_flags ||| VK_ACCESS_MEMORY_WRITE_BIT else vk_flags
  vk_flags

/- Native descriptor-update and barrier structures (the parts cgpu.c
fills in with non-constant data). -/

structure VkDescriptorBufferInfo where
  buffer : Nat
  offset : Nat
  range : Nat
deriving DecidableEq, Repr

structure VkDescriptorImageInfo where
  sampler : Nat
  imageView : Nat
  imageLayout : VkImageLayout
deriving DecidableEq, Repr

structure VkWriteDescriptorSet where
  dstSet : Nat
  dstBinding : Nat
  descriptorType : VkDescriptorType
  bufferInfo : Option VkDescriptorBufferInfo
  imageInfo : Option VkDescriptorImageInfo
deriving DecidableEq, Repr

structure VkMemoryBarrier where
  srcAccessMask : Nat
  dstAccessMask : Nat
deriving DecidableEq, Repr

structure VkBufferMemoryBarrier where
  srcAccessMask : Nat
  dstAccessMask : Nat
  buffer : Nat
  offset : Nat
  size : Nat
deriving DecidableEq, Repr

structure VkImageMemoryBarrier where
  srcAccessMask : Nat
  dstAccessMask : Nat
  oldLayout : VkImageLayout
  newLayout : VkImageLayout
  image : Nat
deriving DecidableEq, Repr

/-- Trace of recorded command-buffer commands, one constructor per native
`vkCmd*` call the embedded functions make. -/
inductive VkRecordedCmd where
  | vkCmdPipelineBarrier (srcStageMask dstStageMask : Nat)
      (memoryBarriers : List VkMemoryBarrier)
      (bufferMemoryBarriers : List VkBufferMemoryBarrier)
      (imageMemoryBarriers : List VkImageMemoryBarrier)
  | vkCmdDispatch (x y z : Nat)
  | vkCmdCopyBufferToImage (buffer image : Nat) (dstImageLayout : VkImageLayout)
deriving DecidableEq, Repr

/-- cgpu.c lines 2003-2037: the buffer-binding loop of
`cgpu_update_resources`.  Produces the `VkWriteDescriptorSet` entries, or the
first error encountered. -/
def cgpu_update_resources_buffers (idevice : cgpu_idevice) (ipipeline : cgpu_ipipeline)
    (ibuffer_store : resource_store cgpu_ibuffer)
    (p_buffer_resources : List cgpu_shader_resource_buffer) :
    Except CgpuResult (List VkWriteDescriptorSet) :=
  match p_buffer_resources with
  | [] => .ok []
  | shader_resource_buffer :: rest =>
    match cgpu_resolve_buffer ibuffer_store shader_resource_buffer.buffer with
    | none => .error .CGPU_FAIL_INVALID_HANDLE
    | some ibuffer =>
      if shader_resource_buffer.offset % idevice.limits.minStorageBufferOffsetAlignment ≠ 0 then
        .error .CGPU_FAIL_BUFFER_OFFSET_NOT_ALIGNED
      else
        match cgpu_update_resources_buffers idevice ipipeline ibuffer_store rest with
        | .error e => .error e
        | .ok ws =>
          .ok ({ dstSet := ipipeline.descriptor_set
                 dstBinding := shader_resource_buffer.binding
                 descriptorType := .VK_DESCRIPTOR_TYPE_STORAGE_BUFFER
                 bufferInfo := some
                   { buffer := ibuffer.buffer
                     offset := shader_resource_buffer.offset
                     range := if shader_resource_buffer.size = CGPU_WHOLE_SIZE then
                         ibuffer.size - shader_resource_buffer.offset
                       else shader_resource_buffer.size }
                 imageInfo := none } :: ws)

/-- cgpu.c lines 2039-2066: the image-binding loop of
`cgpu_update_resources`. -/
def cgpu_update_resources_images (idevice : cgpu_idevice) (ipipeline : cgpu_ipipeline)
    (iimage_store : resource_store cgpu_iimage)
    (p_image_resources : List cgpu_shader_resource_image) :
    Except CgpuResult (List VkWriteDescriptorSet) :=
  match p_image_resources with
  | [] => .ok []
  | shader_resource_image :: rest =>
    match cgpu_resolve_image iimage_store shader_resource_image.image with
    | none => .error .CGPU_FAIL_INVALID_HANDLE
    | some iimage =>
      match cgpu_update_resources_images idevice ipipeline iimage_store rest with
      | .error e => .error e
      | .ok ws =>
        .ok ({ dstSet := ipipeline.descriptor_set
               dstBinding := shader_resource_image.binding
               descriptorType := .VK_DESCRIPTOR_TYPE_STORAGE_IMAGE
               bufferInfo := none
               imageInfo := some
                 { sampler := idevice.sampler
                   imageView := iimage.image_view
                   imageLayout := .VK_IMAGE_LAYOUT_GENERAL } } :: ws)

/-- cgpu.c lines 1981-2077: `cgpu_update_resources`.  Returns the result
code, the pipeline store after the call, and the list of descriptor writes
handed to `vkUpdateDescriptorSets` (empty when the call fails before
reaching it).  Note that the function reads `ipipeline` but performs no
write into the pipeline store. -/
def cgpu_update_resources
    (idevice_store : resource_store cgpu_idevice)
    (ipipeline_store : resource_store cgpu_ipipeline)
    (ibuffer_store : resource_store cgpu_ibuffer)
    (iimage_store : resource_store cgpu_iimage)
    (device pipeline : Nat)
    (p_buffer_resources : List cgpu_shader_resource_buffer)
    (p_image_resources : List cgpu_shader_resource_image) :
    CgpuResult × resource_store cgpu_ipipeline × List VkWriteDescriptorSet :=
  match cgpu_resolve_device idevice_store device with
  | none => (.CGPU_FAIL_INVALID_HANDLE, ipipeline_store, [])
  | some idevice =>
    match cgpu_resolve_pipeline ipipeline_store pipeline with
    | none => (.CGPU_FAIL_INVALID_HANDLE, ipipeline_store, [])
    | some ipipeline =>
      match cgpu_update_resources_buffers idevice ipipeline ibuffer_store p_buffer_resources with
      | .error e => (e, ipipeline_store, [])
      | .ok buffer_writes =>
        match cgpu_update_resources_images idevice ipipeline iimage_store p_image_resources with
        | .error e => (e, ipipeline_store, [])
        | .ok image_writes =>
          (.CGPU_OK, ipipeline_store, buffer_writes ++ image_writes)

/-- cgpu.c lines 707-721: linear scan of the enumerated device extensions. -/
def cgpu_find_device_extension (extension_name : String) (extensions : List String) : Bool :=
  extensions.any (fun e => e = extension_name)

def VK_EXT_DESCRIPTOR_INDEXING_EXTENSION_NAME : String := "VK_EXT_descriptor_indexing"

/-- cgpu.c lines 869-876: pick a queue family supporting both compute and
transfer.  The C loop assigns on every match without breaking, so the last
matching family index wins. -/
def cgpu_find_queue_family_index (queue_family_flags : List Nat) : Option Nat :=
  (List.range queue_family_flags.length).foldl
    (fun acc i =>
      match queue_family_flags.get? i with
      | some flags =>
        if flags &&& VK_QUEUE_COMPUTE_BIT ≠ 0 ∧ flags &&& VK_QUEUE_TRANSFER_BIT ≠ 0 then
          some i
        else acc
      | none => acc)
    none

/-- cgpu.c lines 723-1173: `cgpu_create_device`.  Device enumeration,
property queries and native construction results are oracle parameters;
the function mirrors the original branch structure and error codes,
including which branches free the tentatively allocated handle.  Returns
the result code, the handle written to `*p_device`, and the device store
after the call. -/
def cgpu_create_device
    (idevice_store : resource_store cgpu_idevice)
    (index : Nat)
    (phys_device_count : Nat)
    (api_version_ok : Bool)
    (subgroup_supported_stages subgroup_supported_operations : Nat)
    (device_extensions : List String)
    (queue_family_flags : List Nat)
    (limits : cgpu_physical_device_limits)
    (uninit : cgpu_idevice)
    (r_device r_command_pool r_sampler r_query_pool r_vma : VkResult) :
    CgpuResult × Nat × resource_store cgpu_idevice :=
  match resource_store_create_handle idevice_store uninit with
  | (handle, st) =>
    if phys_device_count > MAX_PHYSICAL_DEVICES then
      (.CGPU_FAIL_MAX_PHYSICAL_DEVICES_REACHED, handle, resource_store_free_handle st handle)
    else if phys_device_count = 0 ∨ index ≥ phys_device_count then
      (.CGPU_FAIL_NO_DEVICE_AT_INDEX, handle, resource_store_free_handle st handle)
    else if ¬ api_version_ok then
      (.CGPU_FAIL_VK_VERSION_NOT_SUPPORTED, handle, resource_store_free_handle st handle)
    else if subgroup_supported_stages &&& VK_QUEUE_COMPUTE_BIT ≠ VK_QUEUE_COMPUTE_BIT ∨
        subgroup_supported_operations &&& VK_SUBGROUP_FEATURE_BASIC_BIT ≠ VK_SUBGROUP_FEATURE_BASIC_BIT ∨
        subgroup_supported_operations &&& VK_SUBGROUP_FEATURE_BALLOT_BIT ≠ VK_SUBGROUP_FEATURE_BALLOT_BIT then
      (.CGPU_FAIL_FEATURE_REQUIREMENTS_NOT_MET, handle, resource_store_free_handle st handle)
    else if device_extensions.length > MAX_DEVICE_EXTENSIONS then
      (.CGPU_FAIL_MAX_DEVICE_EXTENSIONS_REACHED, handle, resource_store_free_handle st handle)
    else if ¬ cgpu_find_device_extension VK_EXT_DESCRIPTOR_INDEXING_EXTENSION_NAME device_extensions then
      (.CGPU_FAIL_FEATURE_REQUIREMENTS_NOT_MET, handle, resource_store_free_handle st handle)
    else if queue_family_flags.length > MAX_QUEUE_FAMILIES then
      (.CGPU_FAIL_MAX_QUEUE_FAMILIES_REACHED, handle, resource_store_free_handle st handle)
    else
      match cgpu_find_queue_family_index queue_family_flags with
      | none =>
        (.CGPU_FAIL_DEVICE_HAS_NO_COMPUTE_QUEUE_FAMILY, handle, resource_store_free_handle st handle)
      | some _ =>
        if r_device ≠ .VK_SUCCESS then
          (.CGPU_FAIL_CAN_NOT_CREATE_LOGICAL_DEVICE, handle, resource_store_free_handle st handle)
        else if r_command_pool ≠ .VK_SUCCESS then
          (.CGPU_FAIL_CAN_NOT_CREATE_COMMAND_POOL, handle, resource_store_free_handle st handle)
        else if r_sampler ≠ .VK_SUCCESS then
          /- cgpu.c line 1074: the sampler-creation failure branch returns
             CGPU_FAIL_CAN_NOT_CREATE_COMMAND_POOL. -/
          (.CGPU_FAIL_CAN_NOT_CREATE_COMMAND_POOL, handle, resource_store_free_handle st handle)
        else if r_query_pool ≠ .VK_SUCCESS then
          (.CGPU_FAIL_UNABLE_TO_CREATE_QUERY_POOL, handle, resource_store_free_handle st handle)
        else if r_vma ≠ .VK_SUCCESS then
          (.CGPU_FAIL_UNABLE_TO_INITIALIZE_VMA, handle, resource_store_free_handle st handle)
        else
          (.CGPU_OK, handle, resource_store_set st handle { uninit with limits := limits })

/-- The native image-creation parameters cgpu.c derives from the abstract
arguments (the `VkImageCreateInfo` fields that vary). -/
structure VkImageCreateInfo where
  tiling : VkImageTiling
  usage : Nat
  initialLayout : VkImageLayout
deriving DecidableEq, Repr

/-- cgpu.c lines 1427-1430: tiling selection of `cgpu_create_image` (an
equality test against the two single-flag transfer usages). -/
def cgpu_select_image_tiling (usage : Nat) : VkImageTiling :=
  if usage = CGPU_IMAGE_USAGE_FLAG_TRANSFER_SRC ∨ usage = CGPU_IMAGE_USAGE_FLAG_TRANSFER_DST then
    .VK_IMAGE_TILING_LINEAR
  else
    .VK_IMAGE_TILING_OPTIMAL

/-- cgpu.c lines 1432-1444: translate abstract image-usage flags to native
bits. -/
def cgpu_translate_image_usage (usage : Nat) : Nat :=
  let vk_image_usage : Nat := 0
  let vk_image_usage := if usage &&& CGPU_IMAGE_USAGE_FLAG_TRANSFER_SRC = CGPU_IMAGE_USAGE_FLAG_TRANSFER_SRC then vk_image_usage ||| VK_IMAGE_USAGE_TRANSFER_SRC_BIT else vk_image_usage
  let vk_image_usage := if usage &&& CGPU_IMAGE_USAGE_FLAG_TRANSFER_DST = CGPU_IMAGE_USAGE_FLAG_TRANSFER_DST then vk_image_usage ||| VK_IMAGE_USAGE_TRANSFER_DST_BIT else vk_image_usage
  let vk_image_usage := if usage &&& CGPU_IMAGE_USAGE_FLAG_SAMPLED = CGPU_IMAGE_USAGE_FLAG_SAMPLED then vk_image_usage ||| VK_IMAGE_USAGE_SAMPLED_BIT else vk_image_usage
  let vk_image_usage := if usage &&& CGPU_IMAGE_USAGE_FLAG_STORAGE = CGPU_IMAGE_USAGE_FLAG_STORAGE then vk_image_usage ||| VK_IMAGE_USAGE_STORAGE_BIT else vk_image_usage
  vk_image_usage

/-- cgpu.c lines 1407-1529: `cgpu_create_image`.  `uninit` is the raw slot
content exposed by allocation, `native_image`/`native_view`/`alloc_size` the
ids and size the native calls would produce; `create_result`/`view_result`
are the native call outcomes.  Returns the result code, the handle written
to `*p_image`, the image store after the call, and the
`VkImageCreateInfo` handed to the native image creation (`none` when the
call fails before building it). -/
def cgpu_create_image
    (idevice_store : resource_store cgpu_idevice)
    (iimage_store : resource_store cgpu_iimage)
    (device width height usage : Nat)
    (uninit : cgpu_iimage)
    (native_image native_view alloc_size : Nat)
    (create_result view_result : VkResult) :
    CgpuResult × Nat × resource_store cgpu_iimage × Option VkImageCreateInfo :=
  match cgpu_resolve_device idevice_store device with
  | none => (.CGPU_FAIL_INVALID_HANDLE, CGPU_INVALID_HANDLE, iimage_store, none)
  | some _ =>
    match resource_store_create_handle iimage_store uninit with
    | (handle, st) =>
      let image_info : VkImageCreateInfo :=
        { tiling := cgpu_select_image_tiling usage
          usage := cgpu_translate_image_usage usage
          initialLayout := .VK_IMAGE_LAYOUT_UNDEFINED }
      if create_result ≠ .VK_SUCCESS then
        (.CGPU_FAIL_UNABLE_TO_CREATE_IMAGE, handle, resource_store_free_handle st handle,
          some image_info)
      else if view_result ≠ .VK_SUCCESS then
        (.CGPU_FAIL_UNABLE_TO_CREATE_IMAGE, handle, resource_store_free_handle st handle,
          some image_info)
      else
        (.CGPU_OK, handle,
          resource_store_set st handle
            { image := native_image
              image_view := native_view
              size := alloc_size
              width := width
              height := height
              layout := .VK_IMAGE_LAYOUT_UNDEFINED
              access_mask := 0 },
          some image_info)

structure VkDescriptorSetLayoutBinding where
  binding : Nat
  descriptorType : VkDescriptorType
  descriptorCount : Nat
  stageFlags : Nat
deriving DecidableEq, Repr

structure VkDescriptorPoolSize where
  type : VkDescriptorType
  descriptorCount : Nat
deriving DecidableEq, Repr

/-- cgpu.c lines 1799-1831: the per-descriptor-type tally loop of
`cgpu_create_pipeline`, counting (storage buffers, storage images, sampled
images, combined image samplers, samplers); an unrecognised descriptor type
aborts (the `default` branch). -/
def cgpu_tally_descriptor_counts (resources : List cgpu_shader_reflection_resource) :
    Option (Nat × Nat × Nat × Nat × Nat) :=
  match resources with
  | [] => some (0, 0, 0, 0, 0)
  | resource :: rest =>
    match cgpu_tally_descriptor_counts rest with
    | none => none
    | some (buffer_count, storage_image_count, sampled_image_count,
        combined_image_sampler_count, sampler_count) =>
      match resource.descriptor_type with
      | .VK_DESCRIPTOR_TYPE_STORAGE_BUFFER =>
        some (buffer_count + 1, storage_image_count, sampled_image_count,
          combined_image_sampler_count, sampler_count)
      | .VK_DESCRIPTOR_TYPE_STORAGE_IMAGE =>
        some (buffer_count, storage_image_count + 1, sampled_image_count,
          combined_image_sampler_count, sampler_count)
      | .VK_DESCRIPTOR_TYPE_SAMPLED_IMAGE =>
        some (buffer_count, storage_image_count, sampled_image_count + 1,
          combined_image_sampler_count, sampler_count)
      | .VK_DESCRIPTOR_TYPE_COMBINED_IMAGE_SAMPLER =>
        some (buffer_count, storage_image_count, sampled_image_count,
          combined_image_sampler_count + 1, sampler_count)
      | .VK_DESCRIPTOR_TYPE_SAMPLER =>
        some (buffer_count, storage_image_count, sampled_image_count,
          combined_image_sampler_count, sampler_count + 1)
      | _ => none

/-- cgpu.c lines 1833-1865: build the descriptor-pool size table from the
tallies, appending one entry per strictly positive count in the fixed
order storage buffer, storage image, sampled image, combined image sampler,
sampler. -/
def cgpu_descriptor_pool_sizes (counts : Nat × Nat × Nat × Nat × Nat) :
    List VkDescriptorPoolSize :=
  match counts with
  | (buffer_count, storage_image_count, sampled_image_count,
      combined_image_sampler_count, sampler_count) =>
    (if 0 < buffer_count then
      [{ type := .VK_DESCRIPTOR_TYPE_STORAGE_BUFFER, descriptorCount := buffer_count }]
    else []) ++
    (if 0 < storage_image_count then
      [{ type := .VK_DESCRIPTOR_TYPE_STORAGE_IMAGE, descriptorCount := storage_image_count }]
    else []) ++
    (if 0 < sampled_image_count then
      [{ type := .VK_DESCRIPTOR_TYPE_SAMPLED_IMAGE, descriptorCount := sampled_image_count }]
    else []) ++
    (if 0 < combined_image_sampler_count then
      [{ type := .VK_DESCRIPTOR_TYPE_COMBINED_IMAGE_SAMPLER,
         descriptorCount := combined_image_sampler_count }]
    else []) ++
    (if 0 < sampler_count then
      [{ type := .VK_DESCRIPTOR_TYPE_SAMPLER, descriptorCount := sampler_count }]
    else [])

/-- The native structures `cgpu_create_pipeline` derives from the shader
reflection (the variable parts of the descriptor set layout, pipeline
layout and descriptor pool creation). -/
structure cgpu_pipeline_native_info where
  descriptor_set_layout_bindings : List VkDescriptorSetLayoutBinding
  push_constant_range_count : Nat
  push_constant_range_size : Nat
  pool_sizes : List VkDescriptorPoolSize
deriving DecidableEq, Repr

/-- cgpu.c lines 1666-1941: `cgpu_create_pipeline`.  Native construction
results are the oracles `r_ds_layout`, `r_pipeline_layout`, `r_pipeline`,
`r_pool`, `r_set`; `uninit` is the raw slot content and
`native_*` the ids the native calls would produce.  Returns the result
code, the handle written to `*p_pipeline`, the pipeline store after the
call, and (when reached) the derived native creation data.  The early
reflection-overflow branch (cgpu.c lines 1689-1692) returns without
freeing the allocated handle, mirroring the source. -/
def cgpu_create_pipeline
    (idevice_store : resource_store cgpu_idevice)
    (ishader_store : resource_store cgpu_ishader)
    (ipipeline_store : resource_store cgpu_ipipeline)
    (device shader : Nat)
    (uninit : cgpu_ipipeline)
    (native_pipeline native_layout native_pool native_set native_ds_layout : Nat)
    (r_ds_layout r_pipeline_layout r_pipeline r_pool r_set : VkResult) :
    CgpuResult × Nat × resource_store cgpu_ipipeline × Option cgpu_pipeline_native_info :=
  match cgpu_resolve_device idevice_store device with
  | none => (.CGPU_FAIL_INVALID_HANDLE, CGPU_INVALID_HANDLE, ipipeline_store, none)
  | some _ =>
    match cgpu_resolve_shader ishader_store shader with
    | none => (.CGPU_FAIL_INVALID_HANDLE, CGPU_INVALID_HANDLE, ipipeline_store, none)
    | some ishader =>
      match resource_store_create_handle ipipeline_store uninit with
      | (handle, st) =>
        let shader_reflection := ishader.reflection
        if shader_reflection.resources.length ≥ MAX_DESCRIPTOR_SET_LAYOUT_BINDINGS then
          (.CGPU_FAIL_UNABLE_TO_CREATE_DESCRIPTOR_LAYOUT, handle, st, none)
        else
          let descriptor_set_layout_bindings := shader_reflection.resources.map
            (fun resource =>
              { binding := resource.binding
                descriptorType := resource.descriptor_type
                descriptorCount := 1
                stageFlags := VK_SHADER_STAGE_COMPUTE_BIT : VkDescriptorSetLayoutBinding })
          if r_ds_layout ≠ .VK_SUCCESS then
            (.CGPU_FAIL_UNABLE_TO_CREATE_DESCRIPTOR_LAYOUT, handle,
              resource_store_free_handle st handle, none)
          else
            let push_constant_range_size := shader_reflection.push_constants_size
            let push_constant_range_count := if push_constant_range_size ≠ 0 then 1 else 0
            if r_pipeline_layout ≠ .VK_SUCCESS then
              (.CGPU_FAIL_UNABLE_TO_CREATE_PIPELINE_LAYOUT, handle,
                resource_store_free_handle st handle, none)
            else if r_pipeline ≠ .VK_SUCCESS then
              (.CGPU_FAIL_UNABLE_TO_CREATE_COMPUTE_PIPELINE, handle,
                resource_store_free_handle st handle, none)
            else
              match cgpu_tally_descriptor_counts shader_reflection.resources with
              | none =>
                (.CGPU_FAIL_UNABLE_TO_CREATE_COMPUTE_PIPELINE, handle,
                  resource_store_free_handle st handle, none)
              | some counts =>
                let pool_sizes := cgpu_descriptor_pool_sizes counts
                let native_info : cgpu_pipeline_native_info :=
                  { descriptor_set_layout_bindings := descriptor_set_layout_bindings
                    push_constant_range_count := push_constant_range_count
                    push_constant_range_size := push_constant_range_size
                    pool_sizes := pool_sizes }
                if r_pool ≠ .VK_SUCCESS then
                  (.CGPU_FAIL_UNABLE_TO_CREATE_DESCRIPTOR_POOL, handle,
                    resource_store_free_handle st handle, some native_info)
                else if r_set ≠ .VK_SUCCESS then
                  (.CGPU_FAIL_UNABLE_TO_ALLOCATE_DESCRIPTOR_SET, handle,
                    resource_store_free_handle st handle, some native_info)
                else
                  (.CGPU_OK, handle,
                    resource_store_set st handle
                      { pipeline := native_pipeline
                        layout := native_layout
                        descriptor_pool := native_pool
                        descriptor_set := native_set
                        descriptor_set_layout := native_ds_layout
                        image_resources := uninit.image_resources
                        shader := shader },
                    some native_info)

/-- cgpu.c lines 2079-2113: `cgpu_create_command_buffer`.  `uninit` is the
raw slot content, `native_cb` the id native allocation would produce and
`alloc_result` its outcome.  Mirrors the source: the allocation-failure
branch (cgpu.c lines 2108-2110) returns without freeing the handle. -/
def cgpu_create_command_buffer
    (idevice_store : resource_store cgpu_idevice)
    (icommand_buffer_store : resource_store cgpu_icommand_buffer)
    (device : Nat)
    (uninit : cgpu_icommand_buffer)
    (native_cb : Nat)
    (alloc_result : VkResult) :
    CgpuResult × Nat × resource_store cgpu_icommand_buffer :=
  match cgpu_resolve_device idevice_store device with
  | none => (.CGPU_FAIL_INVALID_HANDLE, CGPU_INVALID_HANDLE, icommand_buffer_store)
  | some _ =>
    match resource_store_create_handle icommand_buffer_store uninit with
    | (handle, st) =>
      let st := resource_store_set st handle
        { uninit with device := device, pipeline := CGPU_INVALID_HANDLE }
      if alloc_result ≠ .VK_SUCCESS then
        (.CGPU_FAIL_UNABLE_TO_ALLOCATE_COMMAND_BUFFER, handle, st)
      else
        (.CGPU_OK, handle,
          resource_store_set st handle
            { command_buffer := native_cb, device := device, pipeline := CGPU_INVALID_HANDLE })

/-- cgpu.c lines 2354-2368: the image layout a reflected resource requires,
`none` for non-image descriptor types (the `continue` branch). -/
def cgpu_required_image_layout (descriptor_type : VkDescriptorType) : Option VkImageLayout :=
  match descriptor_type with
  | .VK_DESCRIPTOR_TYPE_SAMPLED_IMAGE => some .VK_IMAGE_LAYOUT_SHADER_READ_ONLY_OPTIMAL
  | .VK_DESCRIPTOR_TYPE_COMBINED_IMAGE_SAMPLER => some .VK_IMAGE_LAYOUT_SHADER_READ_ONLY_OPTIMAL
  | .VK_DESCRIPTOR_TYPE_STORAGE_IMAGE => some .VK_IMAGE_LAYOUT_GENERAL
  | _ => none

/-- cgpu.c lines 2396-2402: the access mask derived from a reflected
resource's read/write accesses. -/
def cgpu_shader_access_mask (resource : cgpu_shader_reflection_resource) : Nat :=
  (if resource.read_access then VK_ACCESS_SHADER_READ_BIT else 0) |||
  (if resource.write_access then VK_ACCESS_SHADER_WRITE_BIT else 0)

/-- cgpu.c lines 2350-2422: the per-resource loop of
`cgpu_transition_image_layouts_for_shader`.  Threads the image store and
the accumulated barrier array; on an error the store reflects the
transitions already applied, as in the source. -/
def cgpu_transition_image_layouts_loop
    (ipipeline : cgpu_ipipeline)
    (resources : List cgpu_shader_reflection_resource)
    (iimage_store : resource_store cgpu_iimage)
    (barriers : List VkImageMemoryBarrier) :
    CgpuResult × resource_store cgpu_iimage × List VkImageMemoryBarrier :=
  match resources with
  | [] => (.CGPU_OK, iimage_store, barriers)
  | res_refl :: rest =>
    match cgpu_required_image_layout res_refl.descriptor_type with
    | none => cgpu_transition_image_layouts_loop ipipeline rest iimage_store barriers
    | some new_layout =>
      match ipipeline.image_resources.find? (fun ri => ri.binding == res_refl.binding) with
      | none => (.CGPU_FAIL_DESCRIPTOR_SET_BINDING_MISMATCH, iimage_store, barriers)
      | some res_img =>
        match cgpu_resolve_image iimage_store res_img.image with
        | none => (.CGPU_FAIL_INVALID_HANDLE, iimage_store, barriers)
        | some iimage =>
          if new_layout = iimage.layout then
            cgpu_transition_image_layouts_loop ipipeline rest iimage_store barriers
          else
            let access_mask := cgpu_shader_access_mask res_refl
            let barrier : VkImageMemoryBarrier :=
              { srcAccessMask := iimage.access_mask
                dstAccessMask := access_mask
                oldLayout := iimage.layout
                newLayout := new_layout
                image := iimage.image }
            cgpu_transition_image_layouts_loop ipipeline rest
              (resource_store_set iimage_store res_img.image
                { iimage with access_mask := access_mask, layout := new_layout })
              (barriers ++ [barrier])

/-- cgpu.c lines 2333-2441: `cgpu_transition_image_layouts_for_shader`.
Returns the result code, the image store after the call, and the recorded
command trace (one `vkCmdPipelineBarrier` when at least one barrier was
synthesised, nothing otherwise or on error). -/
def cgpu_transition_image_layouts_for_shader
    (ipipeline_store : resource_store cgpu_ipipeline)
    (ishader_store : resource_store cgpu_ishader)
    (iimage_store : resource_store cgpu_iimage)
    (icommand_buffer : cgpu_icommand_buffer) :
    CgpuResult × resource_store cgpu_iimage × List VkRecordedCmd :=
  match cgpu_resolve_pipeline ipipeline_store icommand_buffer.pipeline with
  | none => (.CGPU_FAIL_INVALID_HANDLE, iimage_store, [])
  | some ipipeline =>
    match cgpu_resolve_shader ishader_store ipipeline.shader with
    | none => (.CGPU_FAIL_INVALID_HANDLE, iimage_store, [])
    | some ishader =>
      match cgpu_transition_image_layouts_loop ipipeline ishader.reflection.resources
          iimage_store [] with
      | (r, st, barriers) =>
        if r ≠ .CGPU_OK then (r, st, [])
        else if barriers.length > 0 then
          (.CGPU_OK, st,
            [.vkCmdPipelineBarrier VK_PIPELINE_STAGE_COMPUTE_SHADER_BIT
              VK_PIPELINE_STAGE_COMPUTE_SHADER_BIT [] [] barriers])
        else (.CGPU_OK, st, [])

/-- cgpu.c lines 2443-2472: `cgpu_cmd_dispatch`.  Runs the layout
transitions, then records the dispatch. -/
def cgpu_cmd_dispatch
    (icommand_buffer_store : resource_store cgpu_icommand_buffer)
    (idevice_store : resource_store cgpu_idevice)
    (ipipeline_store : resource_store cgpu_ipipeline)
    (ishader_store : resource_store cgpu_ishader)
    (iimage_store : resource_store cgpu_iimage)
    (command_buffer dim_x dim_y dim_z : Nat) :
    CgpuResult × resource_store cgpu_iimage × List VkRecordedCmd :=
  match cgpu_resolve_command_buffer icommand_buffer_store command_buffer with
  | none => (.CGPU_FAIL_INVALID_HANDLE, iimage_store, [])
  | some icommand_buffer =>
    match cgpu_resolve_device idevice_store icommand_buffer.device with
    | none => (.CGPU_FAIL_INVALID_HANDLE, iimage_store, [])
    | some _ =>
      match cgpu_transition_image_layouts_for_shader ipipeline_store ishader_store
          iimage_store icommand_buffer with
      | (c_result, st, trace) =>
        if c_result ≠ .CGPU_OK then (c_result, st, trace)
        else (.CGPU_OK, st, trace ++ [.vkCmdDispatch dim_x dim_y dim_z])

/- Caller-facing barrier descriptions (cgpu.h, fields as used in cgpu.c
lines 2493-2555). -/

structure cgpu_memory_barrier where
  src_access_flags : Nat
  dst_access_flags : Nat
deriving DecidableEq, Repr

structure cgpu_buffer_memory_barrier where
  buffer : Nat
  src_access_flags : Nat
  dst_access_flags : Nat
  offset : Nat
  size : Nat
deriving DecidableEq, Repr

structure cgpu_image_memory_barrier where
  image : Nat
  access_mask : Nat
deriving DecidableEq, Repr

/-- cgpu.c lines 2506-2525: the buffer-barrier loop of
`cgpu_cmd_pipeline_barrier`. -/
def cgpu_pipeline_barrier_buffers
    (ibuffer_store : resource_store cgpu_ibuffer)
    (p_buffer_barriers : List cgpu_buffer_memory_barrier) :
    Except CgpuResult (List VkBufferMemoryBarrier) :=
  match p_buffer_barriers with
  | [] => .ok []
  | b_cgpu :: rest =>
    match cgpu_resolve_buffer ibuffer_store b_cgpu.buffer with
    | none => .error .CGPU_FAIL_INVALID_HANDLE
    | some ibuffer =>
      match cgpu_pipeline_barrier_buffers ibuffer_store rest with
      | .error e => .error e
      | .ok bs =>
        .ok ({ srcAccessMask := cgpu_translate_access_flags b_cgpu.src_access_flags
               dstAccessMask := cgpu_translate_access_flags b_cgpu.dst_access_flags
               buffer := ibuffer.buffer
               offset := b_cgpu.offset
               size := b_cgpu.size } :: bs)

/-- cgpu.c lines 2527-2555: the image-barrier loop of
`cgpu_cmd_pipeline_barrier`.  The emitted native barrier carries the
tracked layout as both old and new layout; only the tracked access mask is
written back.  The store is threaded, so on an error it reflects the
access-mask updates already applied. -/
def cgpu_pipeline_barrier_images
    (iimage_store : resource_store cgpu_iimage)
    (p_image_barriers : List cgpu_image_memory_barrier) :
    CgpuResult × resource_store cgpu_iimage × List VkImageMemoryBarrier :=
  match p_image_barriers with
  | [] => (.CGPU_OK, iimage_store, [])
  | b_cgpu :: rest =>
    match cgpu_resolve_image iimage_store b_cgpu.image with
    | none => (.CGPU_FAIL_INVALID_HANDLE, iimage_store, [])
    | some iimage =>
      let access_mask := cgpu_translate_access_flags b_cgpu.access_mask
      let b_vk : VkImageMemoryBarrier :=
        { srcAccessMask := iimage.access_mask
          dstAccessMask := access_mask
          oldLayout := iimage.layout
          newLayout := iimage.layout
          image := iimage.image }
      match cgpu_pipeline_barrier_images
          (resource_store_set iimage_store b_cgpu.image
            { iimage with access_mask := access_mask })
          rest with
      | (r, st, bs) => (r, st, b_vk :: bs)

/-- cgpu.c lines 2474-2571: `cgpu_cmd_pipeline_barrier`.  Returns the result
code, the image store after the call, and the recorded trace (the single
`vkCmdPipelineBarrier` on success). -/
def cgpu_cmd_pipeline_barrier
    (icommand_buffer_store : resource_store cgpu_icommand_buffer)
    (idevice_store : resource_store cgpu_idevice)
    (ibuffer_store : resource_store cgpu_ibuffer)
    (iimage_store : resource_store cgpu_iimage)
    (command_buffer : Nat)
    (p_barriers : List cgpu_memory_barrier)
    (p_buffer_barriers : List cgpu_buffer_memory_barrier)
    (p_image_barriers : List cgpu_image_memory_barrier) :
    CgpuResult × resource_store cgpu_iimage × List VkRecordedCmd :=
  match cgpu_resolve_command_buffer icommand_buffer_store command_buffer with
  | none => (.CGPU_FAIL_INVALID_HANDLE, iimage_store, [])
  | some icommand_buffer =>
    match cgpu_resolve_device idevice_store icommand_buffer.device with
    | none => (.CGPU_FAIL_INVALID_HANDLE, iimage_store, [])
    | some _ =>
      let vk_memory_barriers := p_barriers.map
        (fun b_cgpu =>
          { srcAccessMask := cgpu_translate_access_flags b_cgpu.src_access_flags
            dstAccessMask := cgpu_translate_access_flags b_cgpu.dst_access_flags
            : VkMemoryBarrier })
      match cgpu_pipeline_barrier_buffers ibuffer_store p_buffer_barriers with
      | .error e => (e, iimage_store, [])
      | .ok vk_buffer_memory_barriers =>
        match cgpu_pipeline_barrier_images iimage_store p_image_barriers with
        | (r, st, vk_image_memory_barriers) =>
          if r ≠ .CGPU_OK then (r, st, [])
          else
            (.CGPU_OK, st,
              [.vkCmdPipelineBarrier
                (VK_PIPELINE_STAGE_COMPUTE_SHADER_BIT ||| VK_PIPELINE_STAGE_TRANSFER_BIT)
                (VK_PIPELINE_STAGE_COMPUTE_SHADER_BIT ||| VK_PIPELINE_STAGE_TRANSFER_BIT)
                vk_memory_barriers vk_buffer_memory_barriers vk_image_memory_barriers])

/-- cgpu.c lines 2243-2300: `cgpu_cmd_copy_buffer_to_image`.  Records the
copy with destination layout `VK_IMAGE_LAYOUT_GENERAL`, then sets the
image's tracked layout to general; the tracked access mask and everything
else are untouched and no barrier is recorded. -/
def cgpu_cmd_copy_buffer_to_image
    (icommand_buffer_store : resource_store cgpu_icommand_buffer)
    (idevice_store : resource_store cgpu_idevice)
    (ibuffer_store : resource_store cgpu_ibuffer)
    (iimage_store : resource_store cgpu_iimage)
    (command_buffer buffer image : Nat) :
    CgpuResult × resource_store cgpu_iimage × List VkRecordedCmd :=
  match cgpu_resolve_command_buffer icommand_buffer_store command_buffer with
  | none => (.CGPU_FAIL_INVALID_HANDLE, iimage_store, [])
  | some icommand_buffer =>
    match cgpu_resolve_device idevice_store icommand_buffer.device with
    | none => (.CGPU_FAIL_INVALID_HANDLE, iimage_store, [])
    | some _ =>
      match cgpu_resolve_buffer ibuffer_store buffer with
      | none => (.CGPU_FAIL_INVALID_HANDLE, iimage_store, [])
      | some ibuffer =>
        match cgpu_resolve_image iimage_store image with
        | none => (.CGPU_FAIL_INVALID_HANDLE, iimage_store, [])
        | some iimage =>
          (.CGPU_OK,
            resource_store_set iimage_store image
              { iimage with layout := .VK_IMAGE_LAYOUT_GENERAL },
            [.vkCmdCopyBufferToImage ibuffer.buffer iimage.image
              .VK_IMAGE_LAYOUT_GENERAL])

/- Specification-side description of the state-tracking algorithm, used to
state the claims about `cgpu_transition_image_layouts_for_shader` and
compared against the embedded source function. -/

/-- The image handles the reflection's image resources reach through the
pipeline's cached binding table, in reflection order. -/
def cgpu_shader_image_targets (ipipeline : cgpu_ipipeline)
    (resources : List cgpu_shader_reflection_resource) : List Nat :=
  resources.filterMap (fun r =>
    match cgpu_required_image_layout r.descriptor_type with
    | none => none
    | some _ =>
      (ipipeline.image_resources.find? (fun ri => ri.binding == r.binding)).map
        (fun ri => ri.image))

/-- Specification-side barrier list, following the spec wording: an image
resource whose bound image is already in the required layout contributes no
barrier; otherwise it contributes exactly one barrier from the image's
tracked layout and access mask to the required ones.  Every image is looked
up in the pre-dispatch store. -/
def spec_shader_transition_barriers (ipipeline : cgpu_ipipeline)
    (iimage_store : resource_store cgpu_iimage)
    (resources : List cgpu_shader_reflection_resource) : List VkImageMemoryBarrier :=
  resources.filterMap (fun r =>
    match cgpu_required_image_layout r.descriptor_type with
    | none => none
    | some new_layout =>
      match ipipeline.image_resources.find? (fun ri => ri.binding == r.binding) with
      | none => none
      | some ri =>
        match cgpu_resolve_image iimage_store ri.image with
        | none => none
        | some iimage =>
          if new_layout = iimage.layout then none
          else some
            { srcAccessMask := iimage.access_mask
              dstAccessMask := cgpu_shader_access_mask r
              oldLayout := iimage.layout
              newLayout := new_layout
              image := iimage.image })

/- Concrete fixtures used by the witness theorems. -/

def wlimits : cgpu_physical_device_limits := { minStorageBufferOffsetAlignment := 64 }

def wdevice : cgpu_idevice :=
  { logical_device := 51, physical_device := 52, compute_queue := 53, command_pool := 54,
    timestamp_pool := 55, sampler := 56, limits := wlimits }

def wimage : cgpu_iimage :=
  { image := 41, image_view := 42, size := 16, width := 4, height := 4,
    layout := .VK_IMAGE_LAYOUT_UNDEFINED, access_mask := 0 }

def wbuffer : cgpu_ibuffer := { buffer := 61, size := 256 }

def wrefl_storage_image : cgpu_shader_reflection_resource :=
  { binding := 0, descriptor_type := .VK_DESCRIPTOR_TYPE_STORAGE_IMAGE,
    read_access := true, write_access := true }

def wshader : cgpu_ishader :=
  { module := 21,
    reflection := { resources := [wrefl_storage_image], push_constants_size := 8 } }

def wpipeline : cgpu_ipipeline :=
  { pipeline := 11, layout := 12, descriptor_pool := 13, descriptor_set := 14,
    descriptor_set_layout := 15, image_resources := [{ binding := 0, image := 5 }],
    shader := 3 }

def wcommand_buffer : cgpu_icommand_buffer :=
  { command_buffer := 31, device := 1, pipeline := 2 }

def wdevice_store : resource_store cgpu_idevice := { slots := [(1, wdevice)], next := 2 }

def wpipeline_store : resource_store cgpu_ipipeline := { slots := [(2, wpipeline)], next := 3 }

def wshader_store : resource_store cgpu_ishader := { slots := [(3, wshader)], next := 4 }

def wcommand_buffer_store : resource_store cgpu_icommand_buffer :=
  { slots := [(4, wcommand_buffer)], next := 5 }

def wimage_store : resource_store cgpu_iimage := { slots := [(5, wimage)], next := 6 }

def wbuffer_store : resource_store cgpu_ibuffer := { slots := [(6, wbuffer)], next := 7 }

def wimage_general : cgpu_iimage :=
  { wimage with layout := .VK_IMAGE_LAYOUT_GENERAL, access_mask := 96 }

def wimage_store_after : resource_store cgpu_iimage :=
  { slots := [(5, wimage_general)], next := 6 }

def wbarrier : VkImageMemoryBarrier :=
  { srcAccessMask := 0, dstAccessMask := 96, oldLayout := .VK_IMAGE_LAYOUT_UNDEFINED,
    newLayout := .VK_IMAGE_LAYOUT_GENERAL, image := 41 }

def wtrace : List VkRecordedCmd :=
  [.vkCmdPipelineBarrier VK_PIPELINE_STAGE_COMPUTE_SHADER_BIT
    VK_PIPELINE_STAGE_COMPUTE_SHADER_BIT [] [] [wbarrier],
   .vkCmdDispatch 8 8 1]

/- Lemmas about the descriptor tally and pool sizing of
`cgpu_create_pipeline`. -/

/-- Number of reflected bindings of a given descriptor type. -/
def count_descriptor_type (t : VkDescriptorType)
    (resources : List cgpu_shader_reflection_resource) : Nat :=
  resources.countP (fun r => r.descriptor_type == t)

/-- Witness for C5: a reflection with two storage buffers and one storage
image yields exactly the two pool entries (storageBuffer, 2) and
(storageImage, 1). -/
def wshader2 : cgpu_ishader :=
  { module := 22,
    reflection :=
      { resources :=
          [{ binding := 0, descriptor_type := .VK_DESCRIPTOR_TYPE_STORAGE_BUFFER,
             read_access := true, write_access := false },
           { binding := 1, descriptor_type := .VK_DESCRIPTOR_TYPE_STORAGE_BUFFER,
             read_access := true, write_access := true },
           { binding := 2, descriptor_type := .VK_DESCRIPTOR_TYPE_STORAGE_IMAGE,
             read_access := false, write_access := true }]
        push_constants_size := 0 } }

def wshader2_store : resource_store cgpu_ishader := { slots := [(7, wshader2)], next := 8 }

def wpipeline_info2 : cgpu_pipeline_native_info :=
  { descriptor_set_layout_bindings :=
      [{ binding := 0, descriptorType := .VK_DESCRIPTOR_TYPE_STORAGE_BUFFER,
         descriptorCount := 1, stageFlags := VK_SHADER_STAGE_COMPUTE_BIT },
       { binding := 1, descriptorType := .VK_DESCRIPTOR_TYPE_STORAGE_BUFFER,
         descriptorCount := 1, stageFlags := VK_SHADER_STAGE_COMPUTE_BIT },
       { binding := 2, descriptorType := .VK_DESCRIPTOR_TYPE_STORAGE_IMAGE,
         descriptorCount := 1, stageFlags := VK_SHADER_STAGE_COMPUTE_BIT }]
    push_constant_range_count := 0
    push_constant_range_size := 0
    pool_sizes :=
      [{ type := .VK_DESCRIPTOR_TYPE_STORAGE_BUFFER, descriptorCount := 2 },
       { type := .VK_DESCRIPTOR_TYPE_STORAGE_IMAGE, descriptorCount := 1 }] }

def wpipeline_store_after2 : resource_store cgpu_ipipeline :=
  { slots :=
      [(3, { pipeline := 11, layout := 12, descriptor_pool := 13, descriptor_set := 14,
             descriptor_set_layout := 15, image_resources := [{ binding := 0, image := 5 }],
             shader := 7 }),
       (2, wpipeline)]
    next := 4 }

def wpipeline_info1 : cgpu_pipeline_native_info :=
  { descriptor_set_layout_bindings :=
      [{ binding := 0, descriptorType := .VK_DESCRIPTOR_TYPE_STORAGE_IMAGE,
         descriptorCount := 1, stageFlags := VK_SHADER_STAGE_COMPUTE_BIT }]
    push_constant_range_count := 1
    push_constant_range_size := 8
    pool_sizes := [{ type := .VK_DESCRIPTOR_TYPE_STORAGE_IMAGE, descriptorCount := 1 }] }

def wpipeline_store_after1 : resource_store cgpu_ipipeline :=
  { slots :=
      [(3, { pipeline := 11, layout := 12, descriptor_pool := 13, descriptor_set := 14,
             descriptor_set_layout := 15, image_resources := [{ binding := 0, image := 5 }],
             shader := 3 }),
       (2, wpipeline)]
    next := 4 }

/- Lemmas about `cgpu_cmd_pipeline_barrier`. -/

/-- Specification-side native image barriers of an explicit pipeline
barrier: for each caller barrier, the tracked layout as both old and new
layout, the tracked access mask as source and the translated
caller-specified mask as destination, with every image looked up in the
pre-call store. -/
def spec_explicit_image_barriers (iimage_store : resource_store cgpu_iimage)
    (p_image_barriers : List cgpu_image_memory_barrier) : List VkImageMemoryBarrier :=
  p_image_barriers.filterMap (fun b_cgpu =>
    (cgpu_resolve_image iimage_store b_cgpu.image).map (fun iimage =>
      { srcAccessMask := iimage.access_mask
        dstAccessMask := cgpu_translate_access_flags b_cgpu.access_mask
        oldLayout := iimage.layout
        newLayout := iimage.layout
        image := iimage.image }))

def wimage_store_read : resource_store cgpu_iimage :=
  { slots := [(5, { wimage with access_mask := VK_ACCESS_SHADER_READ_BIT })], next := 6 }

def wimage_barrier : cgpu_image_memory_barrier :=
  { image := 5, access_mask := CGPU_MEMORY_ACCESS_FLAG_SHADER_READ }

def wbarrier_trace : List VkRecordedCmd :=
  [.vkCmdPipelineBarrier
    (VK_PIPELINE_STAGE_COMPUTE_SHADER_BIT ||| VK_PIPELINE_STAGE_TRANSFER_BIT)
    (VK_PIPELINE_STAGE_COMPUTE_SHADER_BIT ||| VK_PIPELINE_STAGE_TRANSFER_BIT)
    [] []
    [{ srcAccessMask := 0, dstAccessMask := VK_ACCESS_SHADER_READ_BIT,
       oldLayout := .VK_IMAGE_LAYOUT_UNDEFINED, newLayout := .VK_IMAGE_LAYOUT_UNDEFINED,
       image := 41 }]]

def wpipeline_empty : cgpu_ipipeline := { wpipeline with image_resources := [] }

def wpipeline_empty_store : resource_store cgpu_ipipeline :=
  { slots := [(2, wpipeline_empty)], next := 3 }

def wdevice_extensions : List String := [VK_EXT_DESCRIPTOR_INDEXING_EXTENSION_NAME]

/- Store lookup lemmas. -/

theorem lookup_cons_eq {α : Type} (k : Nat) (w : α) (l : List (Nat × α)) :
    List.lookup k ((k, w) :: l) = some w := by
  simp [List.lookup]

theorem lookup_cons_ne {α : Type} (a k : Nat) (w : α) (l : List (Nat × α)) (h : a ≠ k) :
    List.lookup a ((k, w) :: l) = List.lookup a l := by
  simp [List.lookup, beq_false_of_ne h]

theorem lookup_map_set {α : Type} (slots : List (Nat × α)) (h : Nat) (v : α) (h' : Nat) :
    (slots.map (fun p => if p.1 = h then (h, v) else p)).lookup h' =
      if h' = h then (slots.lookup h).map (fun _ => v) else slots.lookup h' := by
  induction slots with
  | nil => simp [List.lookup]
  | cons p rest ih =>
    rcases p with ⟨k, w⟩
    simp only [List.map_cons]
    by_cases hk : k = h
    · subst hk
      rw [if_pos rfl]
      by_cases hh : h' = k
      · subst hh
        rw [if_pos rfl, lookup_cons_eq, lookup_cons_eq]
        rfl
      · rw [lookup_cons_ne _ _ _ _ hh, ih, if_neg hh, lookup_cons_ne _ _ _ _ hh, if_neg hh]
    · rw [if_neg hk]
      by_cases hh : h' = k
      · subst hh
        have h2 : ¬ h' = h := fun e => hk (e ▸ rfl)
        rw [if_neg h2, lookup_cons_eq, lookup_cons_eq]
      · rw [lookup_cons_ne _ _ _ _ hh, ih]
        by_cases h3 : h' = h
        · rw [if_pos h3, if_pos h3]
          have h4 : ¬ h = k := fun e => hh (h3.trans e)
          rw [lookup_cons_ne _ _ _ _ h4]
        · rw [if_neg h3, if_neg h3, lookup_cons_ne _ _ _ _ hh]

theorem resource_store_get_set {α : Type} (store : resource_store α) (h : Nat) (v : α)
    (h' : Nat) :
    resource_store_get (resource_store_set store h v) h' =
      if h' = h then (resource_store_get store h).map (fun _ => v)
      else resource_store_get store h' := by
  rcases store with ⟨slots, next⟩
  simpa [resource_store_get, resource_store_set] using lookup_map_set slots h v h'

theorem resource_store_get_set_self {α : Type} (store : resource_store α) (h : Nat)
    (u v : α) (hu : resource_store_get store h = some u) :
    resource_store_get (resource_store_set store h v) h = some v := by
  rw [resource_store_get_set, if_pos rfl, hu]
  rfl

theorem resource_store_get_set_ne {α : Type} (store : resource_store α) (h : Nat) (v : α)
    (h' : Nat) (hne : h' ≠ h) :
    resource_store_get (resource_store_set store h v) h' = resource_store_get store h' := by
  rw [resource_store_get_set, if_neg hne]

theorem mem_targets_of_mem {ipipeline : cgpu_ipipeline}
    {resources : List cgpu_shader_reflection_resource}
    {r : cgpu_shader_reflection_resource} (hr : r ∈ resources)
    {L : VkImageLayout} (hreq : cgpu_required_image_layout r.descriptor_type = some L)
    {ri : cgpu_shader_resource_image}
    (hfind : ipipeline.image_resources.find? (fun q => q.binding == r.binding) = some ri) :
    ri.image ∈ cgpu_shader_image_targets ipipeline resources := by
  apply List.mem_filterMap.mpr
  exact ⟨r, hr, by simp [hreq, hfind]⟩

theorem targets_subset_cons {ipipeline : cgpu_ipipeline}
    {r : cgpu_shader_reflection_resource}
    {rest : List cgpu_shader_reflection_resource} {x : Nat}
    (hx : x ∈ cgpu_shader_image_targets ipipeline rest) :
    x ∈ cgpu_shader_image_targets ipipeline (r :: rest) := by
  rcases List.mem_filterMap.mp hx with ⟨a, ha, hfa⟩
  exact List.mem_filterMap.mpr ⟨a, List.mem_cons_of_mem _ ha, hfa⟩

/-- The specification-side barrier list only consults the store at target
handles, so overwriting a non-target handle leaves it unchanged. -/
theorem spec_shader_transition_barriers_set_not_target (ipipeline : cgpu_ipipeline)
    (resources : List cgpu_shader_reflection_resource)
    (iimage_store : resource_store cgpu_iimage) (h : Nat) (v : cgpu_iimage)
    (hh : h ∉ cgpu_shader_image_targets ipipeline resources) :
    spec_shader_transition_barriers ipipeline (resource_store_set iimage_store h v) resources =
      spec_shader_transition_barriers ipipeline iimage_store resources := by
  induction resources with
  | nil => rfl
  | cons r rest ih =>
    have hh' : h ∉ cgpu_shader_image_targets ipipeline rest :=
      fun m => hh (targets_subset_cons m)
    cases hreq : cgpu_required_image_layout r.descriptor_type with
    | none =>
      simp only [spec_shader_transition_barriers, List.filterMap_cons, hreq]
      exact ih hh'
    | some new_layout =>
      cases hfind : ipipeline.image_resources.find? (fun ri => ri.binding == r.binding) with
      | none =>
        simp only [spec_shader_transition_barriers, List.filterMap_cons, hreq, hfind]
        exact ih hh'
      | some ri =>
        have hne : ri.image ≠ h := by
          intro e
          exact hh (e ▸ mem_targets_of_mem (List.mem_cons_self r rest) hreq hfind)
        simp only [spec_shader_transition_barriers, List.filterMap_cons, hreq, hfind,
          cgpu_resolve_image, resource_store_get_set_ne iimage_store h v ri.image hne]
        have ih' := ih hh'
        simp only [spec_shader_transition_barriers, cgpu_resolve_image] at ih'
        rw [ih']

/-- When every image resource of the reflection reaches an image that is
already in its required layout, the transition loop emits nothing and
leaves the store untouched. -/
theorem cgpu_transition_loop_skips_when_in_layout (ipipeline : cgpu_ipipeline)
    (resources : List cgpu_shader_reflection_resource) :
    ∀ (iimage_store : resource_store cgpu_iimage) (acc : List VkImageMemoryBarrier),
      (∀ r ∈ resources, ∀ L, cgpu_required_image_layout r.descriptor_type = some L →
        ∃ ri, ipipeline.image_resources.find? (fun q => q.binding == r.binding) = some ri ∧
          ∃ im, cgpu_resolve_image iimage_store ri.image = some im ∧ im.layout = L) →
      cgpu_transition_image_layouts_loop ipipeline resources iimage_store acc =
        (.CGPU_OK, iimage_store, acc) := by
  induction resources with
  | nil => intro store acc _; rfl
  | cons r rest ih =>
    intro store acc hall
    cases hreq : cgpu_required_image_layout r.descriptor_type with
    | none =>
      simp only [cgpu_transition_image_layouts_loop, hreq]
      exact ih store acc (fun r' hr' L hL => hall r' (List.mem_cons_of_mem _ hr') L hL)
    | some new_layout =>
      rcases hall r (List.mem_cons_self r rest) new_layout hreq with
        ⟨ri, hfind, im, hlook, hlay⟩
      simp only [cgpu_transition_image_layouts_loop, hreq, hfind, hlook,
        if_pos hlay.symm]
      exact ih store acc (fun r' hr' L hL => hall r' (List.mem_cons_of_mem _ hr') L hL)

/-- Characterization of a successful run of the transition loop under the
assumption that distinct image resources reach distinct images: the emitted
barriers are exactly the specification-side list, non-target images are
untouched, and each target image ends up unchanged (when it already had the
required layout) or with the required layout and access mask. -/
theorem cgpu_transition_loop_characterization (ipipeline : cgpu_ipipeline)
    (resources : List cgpu_shader_reflection_resource) :
    ∀ (iimage_store st : resource_store cgpu_iimage)
      (acc out : List VkImageMemoryBarrier),
      (cgpu_shader_image_targets ipipeline resources).Nodup →
      cgpu_transition_image_layouts_loop ipipeline resources iimage_store acc =
        (.CGPU_OK, st, out) →
      out = acc ++ spec_shader_transition_barriers ipipeline iimage_store resources ∧
      (∀ h, h ∉ cgpu_shader_image_targets ipipeline resources →
        resource_store_get st h = resource_store_get iimage_store h) ∧
      (∀ r ∈ resources, ∀ L, cgpu_required_image_layout r.descriptor_type = some L →
        ∃ ri, ipipeline.image_resources.find? (fun q => q.binding == r.binding) = some ri ∧
          ∃ im, cgpu_resolve_image iimage_store ri.image = some im ∧
            cgpu_resolve_image st ri.image =
              some (if im.layout = L then im
                else { im with layout := L, access_mask := cgpu_shader_access_mask r })) := by
  induction resources with
  | nil =>
    intro store st acc out _ hrun
    simp only [cgpu_transition_image_layouts_loop, Prod.mk.injEq] at hrun
    obtain ⟨-, hst, hout⟩ := hrun
    subst hst; subst hout
    exact ⟨by simp [spec_shader_transition_barriers], fun h _ => rfl, by simp⟩
  | cons r rest ih =>
    intro store st acc out hnodup hrun
    cases hreq : cgpu_required_image_layout r.descriptor_type with
    | none =>
      simp only [cgpu_transition_image_layouts_loop, hreq] at hrun
      have htgt : cgpu_shader_image_targets ipipeline (r :: rest) =
          cgpu_shader_image_targets ipipeline rest := by
        simp [cgpu_shader_image_targets, List.filterMap_cons, hreq]
      rw [htgt] at hnodup
      obtain ⟨hout, hsto, hres⟩ := ih store st acc out hnodup hrun
      refine ⟨?_, ?_, ?_⟩
      · rw [hout]
        congr 1
        simp [spec_shader_transition_barriers, List.filterMap_cons, hreq]
      · intro h hh
        rw [htgt] at hh
        exact hsto h hh
      · intro r' hr' L hL
        rcases List.mem_cons.mp hr' with hrr | hr'
        · rw [hrr] at hL
          rw [hL] at hreq
          cases hreq
        · exact hres r' hr' L hL
    | some new_layout =>
      cases hfind : ipipeline.image_resources.find? (fun ri => ri.binding == r.binding) with
      | none =>
        simp only [cgpu_transition_image_layouts_loop, hreq, hfind, Prod.mk.injEq] at hrun
        exact absurd hrun.1 (by simp)
      | some res_img =>
        cases hlook : cgpu_resolve_image store res_img.image with
        | none =>
          simp only [cgpu_transition_image_layouts_loop, hreq, hfind, hlook,
            Prod.mk.injEq] at hrun
          exact absurd hrun.1 (by simp)
        | some iimage =>
          have htgt : cgpu_shader_image_targets ipipeline (r :: rest) =
              res_img.image :: cgpu_shader_image_targets ipipeline rest := by
            simp [cgpu_shader_image_targets, List.filterMap_cons, hreq, hfind]
          rw [htgt] at hnodup
          have hni : res_img.image ∉ cgpu_shader_image_targets ipipeline rest :=
            (List.nodup_cons.mp hnodup).1
          have hnodup' := (List.nodup_cons.mp hnodup).2
          by_cases hskip : new_layout = iimage.layout
          · simp only [cgpu_transition_image_layouts_loop, hreq, hfind, hlook,
              if_pos hskip] at hrun
            obtain ⟨hout, hsto, hres⟩ := ih store st acc out hnodup' hrun
            refine ⟨?_, ?_, ?_⟩
            · rw [hout]
              congr 1
              simp [spec_shader_transition_barriers, List.filterMap_cons, hreq, hfind,
                hlook, if_pos hskip]
            · intro h hh
              rw [htgt] at hh
              exact hsto h (fun m => hh (List.mem_cons_of_mem _ m))
            · intro r' hr' L hL
              rcases List.mem_cons.mp hr' with hrr | hr'
              · subst hrr
                rw [hL] at hreq
                injection hreq with hLL
                refine ⟨res_img, hfind, iimage, hlook, ?_⟩
                rw [if_pos (hLL.trans hskip).symm]
                rw [show cgpu_resolve_image st res_img.image =
                    resource_store_get st res_img.image from rfl,
                  hsto res_img.image hni]
                exact hlook
              · exact hres r' hr' L hL
          · simp only [cgpu_transition_image_layouts_loop, hreq, hfind, hlook,
              if_neg hskip] at hrun
            set im2 : cgpu_iimage :=
              { iimage with
                  access_mask := cgpu_shader_access_mask r
                  layout := new_layout } with him2
            set b : VkImageMemoryBarrier :=
              { srcAccessMask := iimage.access_mask
                dstAccessMask := cgpu_shader_access_mask r
                oldLayout := iimage.layout
                newLayout := new_layout
                image := iimage.image } with hb
            obtain ⟨hout, hsto, hres⟩ :=
              ih (resource_store_set store res_img.image im2) st (acc ++ [b]) out hnodup' hrun
            have hspecset := spec_shader_transition_barriers_set_not_target ipipeline rest
              store res_img.image im2 hni
            refine ⟨?_, ?_, ?_⟩
            · rw [hout, hspecset]
              have hcons : spec_shader_transition_barriers ipipeline store (r :: rest) =
                  b :: spec_shader_transition_barriers ipipeline store rest := by
                simp [spec_shader_transition_barriers, List.filterMap_cons, hreq, hfind,
                  hlook, if_neg hskip, hb]
              rw [hcons, List.append_assoc]
              rfl
            · intro h hh
              rw [htgt] at hh
              have hne : h ≠ res_img.image := fun e => hh (e ▸ List.mem_cons_self _ _)
              rw [hsto h (fun m => hh (List.mem_cons_of_mem _ m)),
                resource_store_get_set_ne store res_img.image im2 h hne]
            · intro r' hr' L hL
              rcases List.mem_cons.mp hr' with hrr | hr'
              · subst hrr
                rw [hL] at hreq
                injection hreq with hLL
                refine ⟨res_img, hfind, iimage, hlook, ?_⟩
                have hlayne : ¬ iimage.layout = L := fun e => hskip (by rw [← hLL, e])
                rw [if_neg hlayne]
                rw [show cgpu_resolve_image st res_img.image =
                    resource_store_get st res_img.image from rfl,
                  hsto res_img.image hni,
                  resource_store_get_set_self store res_img.image iimage im2 hlook]
                rw [him2, ← hLL]
              · rcases hres r' hr' L hL with ⟨ri', hfind', im', hlook', hst'⟩
                have hmem : ri'.image ∈ cgpu_shader_image_targets ipipeline rest :=
                  mem_targets_of_mem hr' hL hfind'
                have hne : ri'.image ≠ res_img.image := fun e => hni (e ▸ hmem)
                rw [show cgpu_resolve_image
                    (resource_store_set store res_img.image im2) ri'.image =
                    resource_store_get
                    (resource_store_set store res_img.image im2) ri'.image from rfl,
                  resource_store_get_set_ne store res_img.image im2 ri'.image hne] at hlook'
                exact ⟨ri', hfind', im', hlook', hst'⟩

/-- After a successful run of the transition loop, every target image is in
its required layout. -/
theorem cgpu_transition_post_in_layout (ipipeline : cgpu_ipipeline)
    (resources : List cgpu_shader_reflection_resource)
    (iimage_store st : resource_store cgpu_iimage)
    (hres : ∀ r ∈ resources, ∀ L, cgpu_required_image_layout r.descriptor_type = some L →
      ∃ ri, ipipeline.image_resources.find? (fun q => q.binding == r.binding) = some ri ∧
        ∃ im, cgpu_resolve_image iimage_store ri.image = some im ∧
          cgpu_resolve_image st ri.image =
            some (if im.layout = L then im
              else { im with layout := L, access_mask := cgpu_shader_access_mask r })) :
    ∀ r ∈ resources, ∀ L, cgpu_required_image_layout r.descriptor_type = some L →
      ∃ ri, ipipeline.image_resources.find? (fun q => q.binding == r.binding) = some ri ∧
        ∃ im, cgpu_resolve_image st ri.image = some im ∧ im.layout = L := by
  intro r hr L hL
  rcases hres r hr L hL with ⟨ri, hfind, im, _, hst⟩
  refine ⟨ri, hfind, ?_⟩
  by_cases hcase : im.layout = L
  · rw [if_pos hcase] at hst
    exact ⟨im, hst, hcase⟩
  · rw [if_neg hcase] at hst
    exact ⟨_, hst, rfl⟩

/-- C3: for every dispatch recorded via `cgpu_cmd_dispatch`, and for each
image resource the active shader's reflection declares: if the image's
tracked layout already equals the required layout no barrier is emitted for
it, otherwise exactly one barrier is emitted for it (old tracked
layout/access to required layout/access) and the tracked state is updated
to the required values — the emitted list equals the specification-side
`spec_shader_transition_barriers` —, so that an immediately repeated
dispatch against the same bindings emits zero barriers.  The hypothesis
`hnodup` states that distinct image resources reach distinct images. -/
theorem cgpu_cmd_dispatch_exact_barriers_and_idempotent
    (icommand_buffer_store : resource_store cgpu_icommand_buffer)
    (idevice_store : resource_store cgpu_idevice)
    (ipipeline_store : resource_store cgpu_ipipeline)
    (ishader_store : resource_store cgpu_ishader)
    (iimage_store st : resource_store cgpu_iimage)
    (command_buffer dim_x dim_y dim_z : Nat)
    (icommand_buffer : cgpu_icommand_buffer) (idevice : cgpu_idevice)
    (ipipeline : cgpu_ipipeline) (ishader : cgpu_ishader)
    (trace : List VkRecordedCmd)
    (hcb : cgpu_resolve_command_buffer icommand_buffer_store command_buffer =
      some icommand_buffer)
    (hdev : cgpu_resolve_device idevice_store icommand_buffer.device = some idevice)
    (hpip : cgpu_resolve_pipeline ipipeline_store icommand_buffer.pipeline = some ipipeline)
    (hsh : cgpu_resolve_shader ishader_store ipipeline.shader = some ishader)
    (hnodup : (cgpu_shader_image_targets ipipeline ishader.reflection.resources).Nodup)
    (hrun : cgpu_cmd_dispatch icommand_buffer_store idevice_store ipipeline_store
      ishader_store iimage_store command_buffer dim_x dim_y dim_z =
      (.CGPU_OK, st, trace)) :
    (trace =
      (if spec_shader_transition_barriers ipipeline iimage_store
          ishader.reflection.resources = [] then []
       else
        [.vkCmdPipelineBarrier VK_PIPELINE_STAGE_COMPUTE_SHADER_BIT
          VK_PIPELINE_STAGE_COMPUTE_SHADER_BIT [] []
          (spec_shader_transition_barriers ipipeline iimage_store
            ishader.reflection.resources)]) ++
      [.vkCmdDispatch dim_x dim_y dim_z]) ∧
    (∀ r ∈ ishader.reflection.resources, ∀ L,
      cgpu_required_image_layout r.descriptor_type = some L →
      ∃ ri, ipipeline.image_resources.find? (fun q => q.binding == r.binding) = some ri ∧
        ∃ im, cgpu_resolve_image iimage_store ri.image = some im ∧
          cgpu_resolve_image st ri.image =
            some (if im.layout = L then im
              else { im with layout := L, access_mask := cgpu_shader_access_mask r })) ∧
    cgpu_cmd_dispatch icommand_buffer_store idevice_store ipipeline_store ishader_store st
      command_buffer dim_x dim_y dim_z =
      (.CGPU_OK, st, [.vkCmdDispatch dim_x dim_y dim_z]) := by
  rcases hloop : cgpu_transition_image_layouts_loop ipipeline ishader.reflection.resources
    iimage_store [] with ⟨r0, st0, barr0⟩
  simp only [cgpu_cmd_dispatch, hcb, hdev, cgpu_transition_image_layouts_for_shader,
    hpip, hsh, hloop] at hrun
  by_cases hr0 : r0 = .CGPU_OK
  · subst hr0
    simp only [ne_eq, not_true_eq_false, if_false, ite_not] at hrun
    have hstq : st = st0 ∧
        trace = (if barr0.length > 0 then
          [VkRecordedCmd.vkCmdPipelineBarrier VK_PIPELINE_STAGE_COMPUTE_SHADER_BIT
            VK_PIPELINE_STAGE_COMPUTE_SHADER_BIT [] [] barr0] else []) ++
          [.vkCmdDispatch dim_x dim_y dim_z] := by
      by_cases hlen : barr0.length > 0 <;>
        simp [hlen] at hrun <;>
        simp [hlen, hrun.1.symm, hrun.2.symm]
    obtain ⟨hst0, htrace⟩ := hstq
    subst hst0
    obtain ⟨hout, hsto, hres⟩ := cgpu_transition_loop_characterization ipipeline
      ishader.reflection.resources iimage_store st [] barr0 hnodup hloop
    rw [List.nil_append] at hout
    subst hout
    refine ⟨?_, hres, ?_⟩
    · rw [htrace]
      by_cases hspec : spec_shader_transition_barriers ipipeline iimage_store
          ishader.reflection.resources = []
      · simp [hspec]
      · have : (spec_shader_transition_barriers ipipeline iimage_store
            ishader.reflection.resources).length > 0 :=
          List.length_pos.mpr hspec
        simp [hspec, this]
    · have hskipall := cgpu_transition_loop_skips_when_in_layout ipipeline
        ishader.reflection.resources st []
        (cgpu_transition_post_in_layout ipipeline ishader.reflection.resources
          iimage_store st hres)
      simp [cgpu_cmd_dispatch, hcb, hdev, cgpu_transition_image_layouts_for_shader,
        hpip, hsh, hskipall]
  · simp [hr0, Prod.mk.injEq] at hrun

/-- Witness for C3: a dispatch against a storage-image binding whose image
starts in the undefined layout emits exactly one barrier and updates the
tracked state, and the immediately repeated dispatch emits zero barriers. -/
theorem cgpu_cmd_dispatch_exact_barriers_and_idempotent_witness :
    (wtrace =
      (if spec_shader_transition_barriers wpipeline wimage_store
          wshader.reflection.resources = [] then []
       else
        [.vkCmdPipelineBarrier VK_PIPELINE_STAGE_COMPUTE_SHADER_BIT
          VK_PIPELINE_STAGE_COMPUTE_SHADER_BIT [] []
          (spec_shader_transition_barriers wpipeline wimage_store
            wshader.reflection.resources)]) ++
      [.vkCmdDispatch 8 8 1]) ∧
    (∀ r ∈ wshader.reflection.resources, ∀ L,
      cgpu_required_image_layout r.descriptor_type = some L →
      ∃ ri, wpipeline.image_resources.find? (fun q => q.binding == r.binding) = some ri ∧
        ∃ im, cgpu_resolve_image wimage_store ri.image = some im ∧
          cgpu_resolve_image wimage_store_after ri.image =
            some (if im.layout = L then im
              else { im with layout := L, access_mask := cgpu_shader_access_mask r })) ∧
    cgpu_cmd_dispatch wcommand_buffer_store wdevice_store wpipeline_store wshader_store
      wimage_store_after 4 8 8 1 =
      (.CGPU_OK, wimage_store_after, [.vkCmdDispatch 8 8 1]) :=
  cgpu_cmd_dispatch_exact_barriers_and_idempotent wcommand_buffer_store wdevice_store
    wpipeline_store wshader_store wimage_store wimage_store_after 4 8 8 1
    wcommand_buffer wdevice wpipeline wshader wtrace
    (by decide) (by decide) (by decide) (by decide) (by decide) (by decide)

/- Lemmas about the two loops of `cgpu_update_resources`. -/

theorem cgpu_update_resources_buffers_align_iff (idevice : cgpu_idevice)
    (ipipeline : cgpu_ipipeline) (ibuffer_store : resource_store cgpu_ibuffer) :
    ∀ (bufs : List cgpu_shader_resource_buffer),
      (∀ b ∈ bufs, (cgpu_resolve_buffer ibuffer_store b.buffer).isSome) →
      (cgpu_update_resources_buffers idevice ipipeline ibuffer_store bufs =
          .error .CGPU_FAIL_BUFFER_OFFSET_NOT_ALIGNED ↔
        ∃ b ∈ bufs, b.offset % idevice.limits.minStorageBufferOffsetAlignment ≠ 0) := by
  intro bufs
  induction bufs with
  | nil => intro _; simp [cgpu_update_resources_buffers]
  | cons b rest ih =>
    intro hall
    have hb := hall b (List.mem_cons_self b rest)
    rcases Option.isSome_iff_exists.mp hb with ⟨ibuffer, hres⟩
    have hrest := fun b' hb' => hall b' (List.mem_cons_of_mem _ hb')
    by_cases halign : b.offset % idevice.limits.minStorageBufferOffsetAlignment ≠ 0
    · simp only [cgpu_update_resources_buffers, hres, if_pos halign]
      constructor
      · intro _; exact ⟨b, List.mem_cons_self b rest, halign⟩
      · intro _; trivial
    · simp only [cgpu_update_resources_buffers, hres, if_neg halign]
      cases hrec : cgpu_update_resources_buffers idevice ipipeline ibuffer_store rest with
      | error e =>
        have := (ih hrest).symm
        rw [hrec] at this
        simp only []
        constructor
        · intro heq
          injection heq with he
          rcases this.mpr (by rw [he]) with ⟨b', hb', hmis⟩
          exact ⟨b', List.mem_cons_of_mem _ hb', hmis⟩
        · intro hex
          rcases hex with ⟨b', hb', hmis⟩
          rcases List.mem_cons.mp hb' with hbb | hb'
          · exact absurd (hbb ▸ hmis) halign
          · have := (ih hrest).mpr ⟨b', hb', hmis⟩
            rw [hrec] at this
            exact this
      | ok ws =>
        simp only []
        constructor
        · intro heq; cases heq
        · intro hex
          rcases hex with ⟨b', hb', hmis⟩
          rcases List.mem_cons.mp hb' with hbb | hb'
          · exact absurd (hbb ▸ hmis) halign
          · have := (ih hrest).mpr ⟨b', hb', hmis⟩
            rw [hrec] at this
            cases this

theorem cgpu_update_resources_buffers_ok (idevice : cgpu_idevice)
    (ipipeline : cgpu_ipipeline) (ibuffer_store : resource_store cgpu_ibuffer) :
    ∀ (bufs : List cgpu_shader_resource_buffer),
      (∀ b ∈ bufs, (cgpu_resolve_buffer ibuffer_store b.buffer).isSome ∧
        b.offset % idevice.limits.minStorageBufferOffsetAlignment = 0) →
      ∃ ws, cgpu_update_resources_buffers idevice ipipeline ibuffer_store bufs = .ok ws := by
  intro bufs
  induction bufs with
  | nil => intro _; exact ⟨[], rfl⟩
  | cons b rest ih =>
    intro hall
    obtain ⟨hb, halign⟩ := hall b (List.mem_cons_self b rest)
    rcases Option.isSome_iff_exists.mp hb with ⟨ibuffer, hres⟩
    rcases ih (fun b' hb' => hall b' (List.mem_cons_of_mem _ hb')) with ⟨ws, hrec⟩
    simp only [cgpu_update_resources_buffers, hres, if_neg (not_not_intro halign), hrec]
    exact ⟨_, rfl⟩

theorem cgpu_update_resources_images_ok (idevice : cgpu_idevice)
    (ipipeline : cgpu_ipipeline) (iimage_store : resource_store cgpu_iimage) :
    ∀ (imgs : List cgpu_shader_resource_image),
      (∀ im ∈ imgs, (cgpu_resolve_image iimage_store im.image).isSome) →
      ∃ ws, cgpu_update_resources_images idevice ipipeline iimage_store imgs = .ok ws := by
  intro imgs
  induction imgs with
  | nil => intro _; exact ⟨[], rfl⟩
  | cons im rest ih =>
    intro hall
    rcases Option.isSome_iff_exists.mp (hall im (List.mem_cons_self im rest)) with
      ⟨iimage, hres⟩
    rcases ih (fun im' him' => hall im' (List.mem_cons_of_mem _ him')) with ⟨ws, hrec⟩
    simp only [cgpu_update_resources_images, hres, hrec]
    exact ⟨_, rfl⟩

theorem cgpu_update_resources_images_error (idevice : cgpu_idevice)
    (ipipeline : cgpu_ipipeline) (iimage_store : resource_store cgpu_iimage) :
    ∀ (imgs : List cgpu_shader_resource_image) (e : CgpuResult),
      cgpu_update_resources_images idevice ipipeline iimage_store imgs = .error e →
      e = .CGPU_FAIL_INVALID_HANDLE := by
  intro imgs
  induction imgs with
  | nil => intro e he; cases he
  | cons im rest ih =>
    intro e he
    cases hres : cgpu_resolve_image iimage_store im.image with
    | none =>
      simp only [cgpu_update_resources_images, hres] at he
      injection he with he'
      exact he'.symm
    | some iimage =>
      simp only [cgpu_update_resources_images, hres] at he
      cases hrec : cgpu_update_resources_images idevice ipipeline iimage_store rest with
      | error e' =>
        rw [hrec] at he
        injection he with he'
        exact he' ▸ ih e' hrec
      | ok ws =>
        rw [hrec] at he
        cases he

/-- C4: `cgpu_update_resources` fails with the alignment-violation error code
exactly when some storage-buffer binding has an offset that is not a
multiple of the device's `minStorageBufferOffsetAlignment` (given that the
handles involved resolve); on that failure no descriptor write is applied,
and when every offset is aligned and every handle resolves the call
succeeds.  In particular, with alignment `a ≥ 2`, an offset of `a - 1`
fails and an offset of `a` succeeds. -/
theorem cgpu_update_resources_alignment_iff
    (idevice_store : resource_store cgpu_idevice)
    (ipipeline_store : resource_store cgpu_ipipeline)
    (ibuffer_store : resource_store cgpu_ibuffer)
    (iimage_store : resource_store cgpu_iimage)
    (device pipeline : Nat)
    (idevice : cgpu_idevice) (ipipeline : cgpu_ipipeline)
    (p_buffer_resources : List cgpu_shader_resource_buffer)
    (p_image_resources : List cgpu_shader_resource_image)
    (hdev : cgpu_resolve_device idevice_store device = some idevice)
    (hpip : cgpu_resolve_pipeline ipipeline_store pipeline = some ipipeline)
    (_halign : 0 < idevice.limits.minStorageBufferOffsetAlignment)
    (hbufs : ∀ b ∈ p_buffer_resources, (cgpu_resolve_buffer ibuffer_store b.buffer).isSome) :
    ((cgpu_update_resources idevice_store ipipeline_store ibuffer_store iimage_store
        device pipeline p_buffer_resources p_image_resources).1 =
        .CGPU_FAIL_BUFFER_OFFSET_NOT_ALIGNED ↔
      ∃ b ∈ p_buffer_resources,
        b.offset % idevice.limits.minStorageBufferOffsetAlignment ≠ 0) ∧
    ((cgpu_update_resources idevice_store ipipeline_store ibuffer_store iimage_store
        device pipeline p_buffer_resources p_image_resources).1 =
        .CGPU_FAIL_BUFFER_OFFSET_NOT_ALIGNED →
      (cgpu_update_resources idevice_store ipipeline_store ibuffer_store iimage_store
        device pipeline p_buffer_resources p_image_resources).2.2 = []) ∧
    ((∀ b ∈ p_buffer_resources,
        b.offset % idevice.limits.minStorageBufferOffsetAlignment = 0) →
      (∀ im ∈ p_image_resources, (cgpu_resolve_image iimage_store im.image).isSome) →
      (cgpu_update_resources idevice_store ipipeline_store ibuffer_store iimage_store
        device pipeline p_buffer_resources p_image_resources).1 = .CGPU_OK) := by
  have hiff := cgpu_update_resources_buffers_align_iff idevice ipipeline ibuffer_store
    p_buffer_resources hbufs
  refine ⟨?_, ?_, ?_⟩
  · constructor
    · intro heq
      apply hiff.mp
      cases hb : cgpu_update_resources_buffers idevice ipipeline ibuffer_store
          p_buffer_resources with
      | error e =>
        simp only [cgpu_update_resources, hdev, hpip, hb] at heq
        rw [heq]
      | ok ws =>
        cases hi : cgpu_update_resources_images idevice ipipeline iimage_store
            p_image_resources with
        | error e =>
          simp only [cgpu_update_resources, hdev, hpip, hb, hi] at heq
          have := cgpu_update_resources_images_error idevice ipipeline iimage_store
            p_image_resources e hi
          rw [heq] at this
          cases this
        | ok ws' =>
          simp only [cgpu_update_resources, hdev, hpip, hb, hi] at heq
          cases heq
    · intro hex
      have hb := hiff.mpr hex
      simp only [cgpu_update_resources, hdev, hpip, hb]
  · intro heq
    cases hb : cgpu_update_resources_buffers idevice ipipeline ibuffer_store
        p_buffer_resources with
    | error e => simp only [cgpu_update_resources, hdev, hpip, hb]
    | ok ws =>
      cases hi : cgpu_update_resources_images idevice ipipeline iimage_store
          p_image_resources with
      | error e => simp only [cgpu_update_resources, hdev, hpip, hb, hi]
      | ok ws' =>
        simp only [cgpu_update_resources, hdev, hpip, hb, hi] at heq
        cases heq
  · intro hal him
    rcases cgpu_update_resources_buffers_ok idevice ipipeline ibuffer_store
      p_buffer_resources (fun b hb => ⟨hbufs b hb, hal b hb⟩) with ⟨ws, hb⟩
    rcases cgpu_update_resources_images_ok idevice ipipeline iimage_store
      p_image_resources him with ⟨ws', hi⟩
    simp only [cgpu_update_resources, hdev, hpip, hb, hi]

/-- Witness for C4: with alignment 64, a single storage-buffer binding at
offset 63 = 64 - 1 makes `cgpu_update_resources` fail with the alignment
error and apply no descriptor write. -/
theorem cgpu_update_resources_alignment_iff_witness :
    ((cgpu_update_resources wdevice_store wpipeline_store wbuffer_store wimage_store
        1 2 [{ binding := 0, buffer := 6, offset := 63, size := 16 }] []).1 =
        .CGPU_FAIL_BUFFER_OFFSET_NOT_ALIGNED ↔
      ∃ b ∈ [({ binding := 0, buffer := 6, offset := 63, size := 16 } :
          cgpu_shader_resource_buffer)],
        b.offset % wdevice.limits.minStorageBufferOffsetAlignment ≠ 0) ∧
    ((cgpu_update_resources wdevice_store wpipeline_store wbuffer_store wimage_store
        1 2 [{ binding := 0, buffer := 6, offset := 63, size := 16 }] []).1 =
        .CGPU_FAIL_BUFFER_OFFSET_NOT_ALIGNED →
      (cgpu_update_resources wdevice_store wpipeline_store wbuffer_store wimage_store
        1 2 [{ binding := 0, buffer := 6, offset := 63, size := 16 }] []).2.2 = []) ∧
    ((∀ b ∈ [({ binding := 0, buffer := 6, offset := 63, size := 16 } :
          cgpu_shader_resource_buffer)],
        b.offset % wdevice.limits.minStorageBufferOffsetAlignment = 0) →
      (∀ im ∈ ([] : List cgpu_shader_resource_image),
        (cgpu_resolve_image wimage_store im.image).isSome) →
      (cgpu_update_resources wdevice_store wpipeline_store wbuffer_store wimage_store
        1 2 [{ binding := 0, buffer := 6, offset := 63, size := 16 }] []).1 = .CGPU_OK) :=
  cgpu_update_resources_alignment_iff wdevice_store wpipeline_store wbuffer_store
    wimage_store 1 2 wdevice wpipeline
    [{ binding := 0, buffer := 6, offset := 63, size := 16 }] []
    (by decide) (by decide) (by decide) (by decide)

theorem count_descriptor_type_cons (t : VkDescriptorType)
    (r : cgpu_shader_reflection_resource)
    (rest : List cgpu_shader_reflection_resource) :
    count_descriptor_type t (r :: rest) =
      count_descriptor_type t rest + (if r.descriptor_type = t then 1 else 0) := by
  simp only [count_descriptor_type, List.countP_cons]
  by_cases h : r.descriptor_type = t <;> simp [h]

theorem cgpu_tally_eq_counts :
    ∀ (resources : List cgpu_shader_reflection_resource) (a b c d e : Nat),
      cgpu_tally_descriptor_counts resources = some (a, b, c, d, e) →
      a = count_descriptor_type .VK_DESCRIPTOR_TYPE_STORAGE_BUFFER resources ∧
      b = count_descriptor_type .VK_DESCRIPTOR_TYPE_STORAGE_IMAGE resources ∧
      c = count_descriptor_type .VK_DESCRIPTOR_TYPE_SAMPLED_IMAGE resources ∧
      d = count_descriptor_type .VK_DESCRIPTOR_TYPE_COMBINED_IMAGE_SAMPLER resources ∧
      e = count_descriptor_type .VK_DESCRIPTOR_TYPE_SAMPLER resources ∧
      count_descriptor_type .VK_DESCRIPTOR_TYPE_UNIFORM_BUFFER resources = 0 := by
  intro resources
  induction resources with
  | nil =>
    intro a b c d e h
    simp only [cgpu_tally_descriptor_counts, Option.some.injEq, Prod.mk.injEq] at h
    obtain ⟨ha, hb, hc, hd, he⟩ := h
    simp [count_descriptor_type, ha.symm, hb.symm, hc.symm, hd.symm, he.symm]
  | cons r rest ih =>
    intro a b c d e h
    cases hrec : cgpu_tally_descriptor_counts rest with
    | none => rw [cgpu_tally_descriptor_counts, hrec] at h; cases h
    | some counts =>
      rcases counts with ⟨a', b', c', d', e'⟩
      obtain ⟨ha', hb', hc', hd', he', hu'⟩ := ih a' b' c' d' e' hrec
      rw [cgpu_tally_descriptor_counts, hrec] at h
      cases ht : r.descriptor_type <;> rw [ht] at h <;>
        simp only [Option.some.injEq, Prod.mk.injEq] at h
      case VK_DESCRIPTOR_TYPE_STORAGE_BUFFER =>
        obtain ⟨ha, hb, hc, hd, he⟩ := h
        subst ha; subst hb; subst hc; subst hd; subst he
        refine ⟨?_, ?_, ?_, ?_, ?_, ?_⟩ <;>
          simp [count_descriptor_type_cons, ht, ha', hb', hc', hd', he', hu']
      case VK_DESCRIPTOR_TYPE_STORAGE_IMAGE =>
        obtain ⟨ha, hb, hc, hd, he⟩ := h
        subst ha; subst hb; subst hc; subst hd; subst he
        refine ⟨?_, ?_, ?_, ?_, ?_, ?_⟩ <;>
          simp [count_descriptor_type_cons, ht, ha', hb', hc', hd', he', hu']
      case VK_DESCRIPTOR_TYPE_SAMPLED_IMAGE =>
        obtain ⟨ha, hb, hc, hd, he⟩ := h
        subst ha; subst hb; subst hc; subst hd; subst he
        refine ⟨?_, ?_, ?_, ?_, ?_, ?_⟩ <;>
          simp [count_descriptor_type_cons, ht, ha', hb', hc', hd', he', hu']
      case VK_DESCRIPTOR_TYPE_COMBINED_IMAGE_SAMPLER =>
        obtain ⟨ha, hb, hc, hd, he⟩ := h
        subst ha; subst hb; subst hc; subst hd; subst he
        refine ⟨?_, ?_, ?_, ?_, ?_, ?_⟩ <;>
          simp [count_descriptor_type_cons, ht, ha', hb', hc', hd', he', hu']
      case VK_DESCRIPTOR_TYPE_SAMPLER =>
        obtain ⟨ha, hb, hc, hd, he⟩ := h
        subst ha; subst hb; subst hc; subst hd; subst he
        refine ⟨?_, ?_, ?_, ?_, ?_, ?_⟩ <;>
          simp [count_descriptor_type_cons, ht, ha', hb', hc', hd', he', hu']
      case VK_DESCRIPTOR_TYPE_UNIFORM_BUFFER => cases h

/-- A successful `cgpu_create_pipeline` reaches the success branch: the
tally succeeded and the returned native creation data is the one derived
from the shader's reflection. -/
theorem cgpu_create_pipeline_success_info
    (idevice_store : resource_store cgpu_idevice)
    (ishader_store : resource_store cgpu_ishader)
    (ipipeline_store : resource_store cgpu_ipipeline)
    (device shader : Nat) (uninit : cgpu_ipipeline)
    (native_pipeline native_layout native_pool native_set native_ds_layout : Nat)
    (r_ds_layout r_pipeline_layout r_pipeline r_pool r_set : VkResult)
    (ishader : cgpu_ishader) (handle : Nat)
    (st : resource_store cgpu_ipipeline) (info : cgpu_pipeline_native_info)
    (hsh : cgpu_resolve_shader ishader_store shader = some ishader)
    (hrun : cgpu_create_pipeline idevice_store ishader_store ipipeline_store device shader
      uninit native_pipeline native_layout native_pool native_set native_ds_layout
      r_ds_layout r_pipeline_layout r_pipeline r_pool r_set =
      (.CGPU_OK, handle, st, some info)) :
    ∃ counts, cgpu_tally_descriptor_counts ishader.reflection.resources = some counts ∧
      info =
        { descriptor_set_layout_bindings := ishader.reflection.resources.map
            (fun resource =>
              { binding := resource.binding
                descriptorType := resource.descriptor_type
                descriptorCount := 1
                stageFlags := VK_SHADER_STAGE_COMPUTE_BIT })
          push_constant_range_count :=
            if ishader.reflection.push_constants_size = 0 then 0 else 1
          push_constant_range_size := ishader.reflection.push_constants_size
          pool_sizes := cgpu_descriptor_pool_sizes counts } := by
  cases hdev : cgpu_resolve_device idevice_store device with
  | none => simp [cgpu_create_pipeline, hdev, Prod.mk.injEq] at hrun
  | some idevice =>
    simp only [cgpu_create_pipeline, hdev, hsh] at hrun
    by_cases hlen : ishader.reflection.resources.length ≥ MAX_DESCRIPTOR_SET_LAYOUT_BINDINGS
    · simp [hlen, Prod.mk.injEq] at hrun
    · by_cases h1 : r_ds_layout = .VK_SUCCESS
      case neg => simp [hlen, h1, Prod.mk.injEq] at hrun
      by_cases h2 : r_pipeline_layout = .VK_SUCCESS
      case neg => simp [hlen, h1, h2, Prod.mk.injEq] at hrun
      by_cases h3 : r_pipeline = .VK_SUCCESS
      case neg => simp [hlen, h1, h2, h3, Prod.mk.injEq] at hrun
      cases htally : cgpu_tally_descriptor_counts ishader.reflection.resources with
      | none => simp [hlen, h1, h2, h3, htally, Prod.mk.injEq] at hrun
      | some counts =>
        by_cases h4 : r_pool = .VK_SUCCESS
        case neg => simp [hlen, h1, h2, h3, htally, h4, Prod.mk.injEq] at hrun
        by_cases h5 : r_set = .VK_SUCCESS
        case neg => simp [hlen, h1, h2, h3, htally, h4, h5, Prod.mk.injEq] at hrun
        simp only [hlen, h1, h2, h3, htally, h4, h5, if_neg, ite_false, not_false_iff,
          ne_eq, not_true_eq_false, if_false, Prod.mk.injEq] at hrun
        refine ⟨counts, rfl, ?_⟩
        simp [hlen, h1, h2, h3, h4, h5] at hrun
        exact hrun.2.2.symm

theorem cgpu_descriptor_pool_sizes_filter (a b c d e : Nat) (t : VkDescriptorType) :
    (cgpu_descriptor_pool_sizes (a, b, c, d, e)).filter (fun p => p.type == t) =
      (match t with
      | .VK_DESCRIPTOR_TYPE_STORAGE_BUFFER =>
        if 0 < a then
          [{ type := .VK_DESCRIPTOR_TYPE_STORAGE_BUFFER, descriptorCount := a }] else []
      | .VK_DESCRIPTOR_TYPE_STORAGE_IMAGE =>
        if 0 < b then
          [{ type := .VK_DESCRIPTOR_TYPE_STORAGE_IMAGE, descriptorCount := b }] else []
      | .VK_DESCRIPTOR_TYPE_SAMPLED_IMAGE =>
        if 0 < c then
          [{ type := .VK_DESCRIPTOR_TYPE_SAMPLED_IMAGE, descriptorCount := c }] else []
      | .VK_DESCRIPTOR_TYPE_COMBINED_IMAGE_SAMPLER =>
        if 0 < d then
          [{ type := .VK_DESCRIPTOR_TYPE_COMBINED_IMAGE_SAMPLER, descriptorCount := d }]
        else []
      | .VK_DESCRIPTOR_TYPE_SAMPLER =>
        if 0 < e then
          [{ type := .VK_DESCRIPTOR_TYPE_SAMPLER, descriptorCount := e }] else []
      | .VK_DESCRIPTOR_TYPE_UNIFORM_BUFFER => []) := by
  cases t <;>
    simp only [cgpu_descriptor_pool_sizes] <;>
    split_ifs <;>
    simp_all [List.filter_append]

/-- C5: for every successful `cgpu_create_pipeline`, the descriptor pool's
size table contains exactly one entry for each descriptor type with a
nonzero number of reflected bindings — carrying exactly that number — and
no entry for any type with zero bindings. -/
theorem cgpu_create_pipeline_descriptor_pool_exact_sizing
    (idevice_store : resource_store cgpu_idevice)
    (ishader_store : resource_store cgpu_ishader)
    (ipipeline_store : resource_store cgpu_ipipeline)
    (device shader : Nat) (uninit : cgpu_ipipeline)
    (native_pipeline native_layout native_pool native_set native_ds_layout : Nat)
    (r_ds_layout r_pipeline_layout r_pipeline r_pool r_set : VkResult)
    (ishader : cgpu_ishader) (handle : Nat)
    (st : resource_store cgpu_ipipeline) (info : cgpu_pipeline_native_info)
    (hsh : cgpu_resolve_shader ishader_store shader = some ishader)
    (hrun : cgpu_create_pipeline idevice_store ishader_store ipipeline_store device shader
      uninit native_pipeline native_layout native_pool native_set native_ds_layout
      r_ds_layout r_pipeline_layout r_pipeline r_pool r_set =
      (.CGPU_OK, handle, st, some info)) :
    ∀ t : VkDescriptorType,
      info.pool_sizes.filter (fun p => p.type == t) =
        if 0 < count_descriptor_type t ishader.reflection.resources then
          [{ type := t,
             descriptorCount := count_descriptor_type t ishader.reflection.resources }]
        else [] := by
  rcases cgpu_create_pipeline_success_info idevice_store ishader_store ipipeline_store
    device shader uninit native_pipeline native_layout native_pool native_set
    native_ds_layout r_ds_layout r_pipeline_layout r_pipeline r_pool r_set ishader handle
    st info hsh hrun with ⟨counts, htally, hinfo⟩
  rcases counts with ⟨a, b, c, d, e⟩
  obtain ⟨ha, hb, hc, hd, he, hu⟩ :=
    cgpu_tally_eq_counts ishader.reflection.resources a b c d e htally
  subst hinfo
  intro t
  simp only []
  rw [cgpu_descriptor_pool_sizes_filter]
  cases t <;> simp [ha, hb, hc, hd, he, hu]

theorem cgpu_create_pipeline_descriptor_pool_exact_sizing_witness :
    wpipeline_info2.pool_sizes.filter
      (fun p => p.type == VkDescriptorType.VK_DESCRIPTOR_TYPE_STORAGE_BUFFER) =
      if 0 < count_descriptor_type .VK_DESCRIPTOR_TYPE_STORAGE_BUFFER
          wshader2.reflection.resources then
        [{ type := .VK_DESCRIPTOR_TYPE_STORAGE_BUFFER,
           descriptorCount := count_descriptor_type .VK_DESCRIPTOR_TYPE_STORAGE_BUFFER
             wshader2.reflection.resources }]
      else [] :=
  cgpu_create_pipeline_descriptor_pool_exact_sizing wdevice_store wshader2_store
    wpipeline_store 1 7 wpipeline 11 12 13 14 15
    .VK_SUCCESS .VK_SUCCESS .VK_SUCCESS .VK_SUCCESS .VK_SUCCESS
    wshader2 3 wpipeline_store_after2 wpipeline_info2
    (by decide) (by decide) .VK_DESCRIPTOR_TYPE_STORAGE_BUFFER

/-- C9: for every successful `cgpu_create_pipeline`, the pipeline layout
carries a push-constant range of size exactly the reflected push-constant
byte size when that size is nonzero, and no push-constant range at all
(range count zero) when the reflected size is zero. -/
theorem cgpu_create_pipeline_push_constant_range_exact
    (idevice_store : resource_store cgpu_idevice)
    (ishader_store : resource_store cgpu_ishader)
    (ipipeline_store : resource_store cgpu_ipipeline)
    (device shader : Nat) (uninit : cgpu_ipipeline)
    (native_pipeline native_layout native_pool native_set native_ds_layout : Nat)
    (r_ds_layout r_pipeline_layout r_pipeline r_pool r_set : VkResult)
    (ishader : cgpu_ishader) (handle : Nat)
    (st : resource_store cgpu_ipipeline) (info : cgpu_pipeline_native_info)
    (hsh : cgpu_resolve_shader ishader_store shader = some ishader)
    (hrun : cgpu_create_pipeline idevice_store ishader_store ipipeline_store device shader
      uninit native_pipeline native_layout native_pool native_set native_ds_layout
      r_ds_layout r_pipeline_layout r_pipeline r_pool r_set =
      (.CGPU_OK, handle, st, some info)) :
    (ishader.reflection.push_constants_size ≠ 0 →
      info.push_constant_range_count = 1 ∧
      info.push_constant_range_size = ishader.reflection.push_constants_size) ∧
    (ishader.reflection.push_constants_size = 0 →
      info.push_constant_range_count = 0) := by
  rcases cgpu_create_pipeline_success_info idevice_store ishader_store ipipeline_store
    device shader uninit native_pipeline native_layout native_pool native_set
    native_ds_layout r_ds_layout r_pipeline_layout r_pipeline r_pool r_set ishader handle
    st info hsh hrun with ⟨counts, htally, hinfo⟩
  subst hinfo
  constructor
  · intro hne
    exact ⟨by simp [hne], rfl⟩
  · intro he0
    simp [he0]

/-- Witness for C9: a reflection with push-constant size 8 yields exactly
one push-constant range of size 8. -/
theorem cgpu_create_pipeline_push_constant_range_exact_witness :
    (wshader.reflection.push_constants_size ≠ 0 →
      wpipeline_info1.push_constant_range_count = 1 ∧
      wpipeline_info1.push_constant_range_size = wshader.reflection.push_constants_size) ∧
    (wshader.reflection.push_constants_size = 0 →
      wpipeline_info1.push_constant_range_count = 0) :=
  cgpu_create_pipeline_push_constant_range_exact wdevice_store wshader_store
    wpipeline_store 1 3 wpipeline 11 12 13 14 15
    .VK_SUCCESS .VK_SUCCESS .VK_SUCCESS .VK_SUCCESS .VK_SUCCESS
    wshader 3 wpipeline_store_after1 wpipeline_info1
    (by decide) (by decide)

theorem spec_explicit_image_barriers_set_not_mem
    (iimage_store : resource_store cgpu_iimage)
    (p_image_barriers : List cgpu_image_memory_barrier) (h : Nat) (v : cgpu_iimage)
    (hh : h ∉ p_image_barriers.map (fun b => b.image)) :
    spec_explicit_image_barriers (resource_store_set iimage_store h v) p_image_barriers =
      spec_explicit_image_barriers iimage_store p_image_barriers := by
  induction p_image_barriers with
  | nil => rfl
  | cons b rest ih =>
    have hne : b.image ≠ h := by
      intro e
      exact hh (e ▸ List.mem_map_of_mem (fun q => q.image) (List.mem_cons_self b rest))
    have hh' : h ∉ rest.map (fun q => q.image) := by
      intro m
      exact hh (List.mem_cons_of_mem _ m)
    simp only [spec_explicit_image_barriers, List.filterMap_cons, cgpu_resolve_image,
      resource_store_get_set_ne iimage_store h v b.image hne]
    have ih' := ih hh'
    simp only [spec_explicit_image_barriers, cgpu_resolve_image] at ih'
    rw [ih']

theorem cgpu_pipeline_barrier_buffers_error
    (ibuffer_store : resource_store cgpu_ibuffer) :
    ∀ (bs : List cgpu_buffer_memory_barrier) (e : CgpuResult),
      cgpu_pipeline_barrier_buffers ibuffer_store bs = .error e →
      e = .CGPU_FAIL_INVALID_HANDLE := by
  intro bs
  induction bs with
  | nil => intro e he; cases he
  | cons b rest ih =>
    intro e he
    cases hres : cgpu_resolve_buffer ibuffer_store b.buffer with
    | none =>
      simp only [cgpu_pipeline_barrier_buffers, hres] at he
      injection he with he'
      exact he'.symm
    | some ibuffer =>
      simp only [cgpu_pipeline_barrier_buffers, hres] at he
      cases hrec : cgpu_pipeline_barrier_buffers ibuffer_store rest with
      | error e' =>
        rw [hrec] at he
        injection he with he'
        exact he' ▸ ih e' hrec
      | ok bs' =>
        rw [hrec] at he
        cases he

/-- Characterization of a successful run of the image-barrier loop of
`cgpu_cmd_pipeline_barrier` (with pairwise distinct image handles): the
emitted native barriers are the specification-side ones, non-mentioned
images are untouched, and each mentioned image keeps its layout while its
tracked access mask becomes the translated caller-specified mask. -/
theorem cgpu_pipeline_barrier_images_characterization :
    ∀ (p_image_barriers : List cgpu_image_memory_barrier)
      (iimage_store st : resource_store cgpu_iimage) (out : List VkImageMemoryBarrier),
      (p_image_barriers.map (fun b => b.image)).Nodup →
      cgpu_pipeline_barrier_images iimage_store p_image_barriers = (.CGPU_OK, st, out) →
      out = spec_explicit_image_barriers iimage_store p_image_barriers ∧
      (∀ h, h ∉ p_image_barriers.map (fun b => b.image) →
        resource_store_get st h = resource_store_get iimage_store h) ∧
      (∀ b ∈ p_image_barriers, ∃ im,
        cgpu_resolve_image iimage_store b.image = some im ∧
        cgpu_resolve_image st b.image =
          some { im with access_mask := cgpu_translate_access_flags b.access_mask }) := by
  intro bs
  induction bs with
  | nil =>
    intro store st out _ hrun
    simp only [cgpu_pipeline_barrier_images, Prod.mk.injEq] at hrun
    obtain ⟨-, hst, hout⟩ := hrun
    subst hst; subst hout
    exact ⟨rfl, fun h _ => rfl, by simp⟩
  | cons b rest ih =>
    intro store st out hnodup hrun
    cases hres : cgpu_resolve_image store b.image with
    | none =>
      simp only [cgpu_pipeline_barrier_images, hres, Prod.mk.injEq] at hrun
      exact absurd hrun.1 (by simp)
    | some iimage =>
      rcases hrec : cgpu_pipeline_barrier_images
        (resource_store_set store b.image
          { iimage with access_mask := cgpu_translate_access_flags b.access_mask })
        rest with ⟨r2, st2, vs⟩
      simp only [cgpu_pipeline_barrier_images, hres, hrec, Prod.mk.injEq] at hrun
      obtain ⟨hr2, hst2, hout⟩ := hrun
      subst hr2
      subst hst2
      have hni : b.image ∉ rest.map (fun q => q.image) :=
        (List.nodup_cons.mp (by simpa using hnodup)).1
      have hnodup' : (rest.map (fun q => q.image)).Nodup :=
        (List.nodup_cons.mp (by simpa using hnodup)).2
      obtain ⟨hvs, hsto, hmem⟩ := ih
        (resource_store_set store b.image
          { iimage with access_mask := cgpu_translate_access_flags b.access_mask })
        st2 vs hnodup' hrec
      refine ⟨?_, ?_, ?_⟩
      · rw [← hout, hvs,
          spec_explicit_image_barriers_set_not_mem store rest b.image _ hni]
        simp [spec_explicit_image_barriers, List.filterMap_cons, hres]
      · intro h hh
        have hne : h ≠ b.image := by
          intro e
          exact hh (e ▸ List.mem_map_of_mem (fun q => q.image) (List.mem_cons_self b rest))
        rw [hsto h (fun m => hh (List.mem_cons_of_mem _ m)),
          resource_store_get_set_ne store b.image _ h hne]
      · intro b' hb'
        rcases List.mem_cons.mp hb' with hbb | hb'
        · subst hbb
          refine ⟨iimage, hres, ?_⟩
          rw [show cgpu_resolve_image st2 b'.image =
              resource_store_get st2 b'.image from rfl,
            hsto b'.image hni,
            resource_store_get_set_self store b'.image iimage _ hres]
        · rcases hmem b' hb' with ⟨im', hlook', hst'⟩
          have hmemmap : b'.image ∈ rest.map (fun q => q.image) :=
            List.mem_map_of_mem (fun q => q.image) hb'
          have hne : b'.image ≠ b.image := fun e => hni (e ▸ hmemmap)
          rw [show cgpu_resolve_image
              (resource_store_set store b.image
                { iimage with access_mask := cgpu_translate_access_flags b.access_mask })
              b'.image =
              resource_store_get
              (resource_store_set store b.image
                { iimage with access_mask := cgpu_translate_access_flags b.access_mask })
              b'.image from rfl,
            resource_store_get_set_ne store b.image _ b'.image hne] at hlook'
          exact ⟨im', hlook', hst'⟩

/-- The image-barrier loop never changes any image's tracked layout,
whatever its outcome. -/
theorem cgpu_pipeline_barrier_images_layouts_unchanged :
    ∀ (p_image_barriers : List cgpu_image_memory_barrier)
      (iimage_store st : resource_store cgpu_iimage) (r : CgpuResult)
      (out : List VkImageMemoryBarrier),
      cgpu_pipeline_barrier_images iimage_store p_image_barriers = (r, st, out) →
      ∀ h, (resource_store_get st h).map cgpu_iimage.layout =
        (resource_store_get iimage_store h).map cgpu_iimage.layout := by
  intro bs
  induction bs with
  | nil =>
    intro store st r out hrun h
    simp only [cgpu_pipeline_barrier_images, Prod.mk.injEq] at hrun
    rw [hrun.2.1]
  | cons b rest ih =>
    intro store st r out hrun h
    cases hres : cgpu_resolve_image store b.image with
    | none =>
      simp only [cgpu_pipeline_barrier_images, hres, Prod.mk.injEq] at hrun
      rw [hrun.2.1]
    | some iimage =>
      rcases hrec : cgpu_pipeline_barrier_images
        (resource_store_set store b.image
          { iimage with access_mask := cgpu_translate_access_flags b.access_mask })
        rest with ⟨r2, st2, vs⟩
      simp only [cgpu_pipeline_barrier_images, hres, hrec, Prod.mk.injEq] at hrun
      have hstep := ih _ st2 r2 vs hrec h
      rw [← hrun.2.1, hstep]
      have hres' : resource_store_get store b.image = some iimage := hres
      by_cases hcase : h = b.image
      · subst hcase
        simp [resource_store_get_set, hres']
      · rw [resource_store_get_set_ne store b.image _ h hcase]

/-- C8: for every image barrier recorded through `cgpu_cmd_pipeline_barrier`,
the emitted native barrier uses the image's tracked current layout as both
old and new layout, no image's tracked layout is changed by the call, and
each mentioned image's tracked access mask becomes the translated
caller-specified access mask. -/
theorem cgpu_cmd_pipeline_barrier_layout_preserving_access_update
    (icommand_buffer_store : resource_store cgpu_icommand_buffer)
    (idevice_store : resource_store cgpu_idevice)
    (ibuffer_store : resource_store cgpu_ibuffer)
    (iimage_store st : resource_store cgpu_iimage)
    (command_buffer : Nat)
    (p_barriers : List cgpu_memory_barrier)
    (p_buffer_barriers : List cgpu_buffer_memory_barrier)
    (p_image_barriers : List cgpu_image_memory_barrier)
    (icommand_buffer : cgpu_icommand_buffer) (idevice : cgpu_idevice)
    (trace : List VkRecordedCmd)
    (hcb : cgpu_resolve_command_buffer icommand_buffer_store command_buffer =
      some icommand_buffer)
    (hdev : cgpu_resolve_device idevice_store icommand_buffer.device = some idevice)
    (hnodup : (p_image_barriers.map (fun b => b.image)).Nodup)
    (hrun : cgpu_cmd_pipeline_barrier icommand_buffer_store idevice_store ibuffer_store
      iimage_store command_buffer p_barriers p_buffer_barriers p_image_barriers =
      (.CGPU_OK, st, trace)) :
    (∃ vk_buffer_memory_barriers, trace =
      [.vkCmdPipelineBarrier
        (VK_PIPELINE_STAGE_COMPUTE_SHADER_BIT ||| VK_PIPELINE_STAGE_TRANSFER_BIT)
        (VK_PIPELINE_STAGE_COMPUTE_SHADER_BIT ||| VK_PIPELINE_STAGE_TRANSFER_BIT)
        (p_barriers.map (fun b_cgpu =>
          { srcAccessMask := cgpu_translate_access_flags b_cgpu.src_access_flags
            dstAccessMask := cgpu_translate_access_flags b_cgpu.dst_access_flags }))
        vk_buffer_memory_barriers
        (spec_explicit_image_barriers iimage_store p_image_barriers)]) ∧
    (∀ h, (resource_store_get st h).map cgpu_iimage.layout =
      (resource_store_get iimage_store h).map cgpu_iimage.layout) ∧
    (∀ b ∈ p_image_barriers, ∃ im,
      cgpu_resolve_image iimage_store b.image = some im ∧
      cgpu_resolve_image st b.image =
        some { im with access_mask := cgpu_translate_access_flags b.access_mask }) := by
  cases hbuf : cgpu_pipeline_barrier_buffers ibuffer_store p_buffer_barriers with
  | error e =>
    simp only [cgpu_cmd_pipeline_barrier, hcb, hdev, hbuf, Prod.mk.injEq] at hrun
    have := cgpu_pipeline_barrier_buffers_error ibuffer_store p_buffer_barriers e hbuf
    rw [hrun.1] at this
    cases this
  | ok vk_buffer_memory_barriers =>
    rcases himg : cgpu_pipeline_barrier_images iimage_store p_image_barriers with
      ⟨r2, st2, vs⟩
    by_cases hr2 : r2 = .CGPU_OK
    · subst hr2
      simp only [cgpu_cmd_pipeline_barrier, hcb, hdev, hbuf, himg, ne_eq,
        not_true_eq_false, if_false, ite_not, Prod.mk.injEq] at hrun
      obtain ⟨-, hst2, htrace⟩ := hrun
      subst hst2
      obtain ⟨hvs, -, hmem⟩ := cgpu_pipeline_barrier_images_characterization
        p_image_barriers iimage_store st2 vs hnodup himg
      refine ⟨⟨vk_buffer_memory_barriers, ?_⟩, ?_, hmem⟩
      · rw [← htrace, hvs]
      · exact fun h => cgpu_pipeline_barrier_images_layouts_unchanged p_image_barriers
          iimage_store st2 .CGPU_OK vs himg h
    · simp only [cgpu_cmd_pipeline_barrier, hcb, hdev, hbuf, himg, Prod.mk.injEq] at hrun
      rw [if_pos hr2] at hrun
      simp only [Prod.mk.injEq] at hrun
      exact absurd hrun.1 hr2

/-- Witness for C8: an explicit image barrier on an image tracked in the
undefined layout emits old = new = undefined and rewrites only the tracked
access mask to the translated shader-read bit. -/
theorem cgpu_cmd_pipeline_barrier_layout_preserving_access_update_witness :
    (∃ vk_buffer_memory_barriers, wbarrier_trace =
      [.vkCmdPipelineBarrier
        (VK_PIPELINE_STAGE_COMPUTE_SHADER_BIT ||| VK_PIPELINE_STAGE_TRANSFER_BIT)
        (VK_PIPELINE_STAGE_COMPUTE_SHADER_BIT ||| VK_PIPELINE_STAGE_TRANSFER_BIT)
        (([] : List cgpu_memory_barrier).map (fun b_cgpu =>
          { srcAccessMask := cgpu_translate_access_flags b_cgpu.src_access_flags
            dstAccessMask := cgpu_translate_access_flags b_cgpu.dst_access_flags }))
        vk_buffer_memory_barriers
        (spec_explicit_image_barriers wimage_store [wimage_barrier])]) ∧
    (∀ h, (resource_store_get wimage_store_read h).map cgpu_iimage.layout =
      (resource_store_get wimage_store h).map cgpu_iimage.layout) ∧
    (∀ b ∈ [wimage_barrier], ∃ im,
      cgpu_resolve_image wimage_store b.image = some im ∧
      cgpu_resolve_image wimage_store_read b.image =
        some { im with access_mask := cgpu_translate_access_flags b.access_mask }) :=
  cgpu_cmd_pipeline_barrier_layout_preserving_access_update wcommand_buffer_store
    wdevice_store wbuffer_store wimage_store wimage_store_read 4 [] [] [wimage_barrier]
    wcommand_buffer wdevice wbarrier_trace
    (by decide) (by decide) (by decide) (by decide)

/-- If an image is tracked in the general layout, every resource bound to it
requires the general layout, and no other handle resolves to its native id,
then a successful transition run emits no barrier for that native image. -/
theorem cgpu_transition_loop_no_barrier_for_general (ipipeline : cgpu_ipipeline)
    (imgH nid : Nat) :
    ∀ (resources : List cgpu_shader_reflection_resource)
      (store st : resource_store cgpu_iimage)
      (acc barr : List VkImageMemoryBarrier),
      (∃ ii, resource_store_get store imgH = some ii ∧
        ii.layout = .VK_IMAGE_LAYOUT_GENERAL ∧ ii.image = nid) →
      (∀ h img', resource_store_get store h = some img' → img'.image = nid → h = imgH) →
      (∀ r ∈ resources, ∀ L, cgpu_required_image_layout r.descriptor_type = some L →
        ∀ ri, ipipeline.image_resources.find? (fun q => q.binding == r.binding) = some ri →
        ri.image = imgH → L = .VK_IMAGE_LAYOUT_GENERAL) →
      cgpu_transition_image_layouts_loop ipipeline resources store acc =
        (.CGPU_OK, st, barr) →
      ∀ b ∈ barr, b ∈ acc ∨ b.image ≠ nid := by
  intro resources
  induction resources with
  | nil =>
    intro store st acc barr _ _ _ hrun b hb
    simp only [cgpu_transition_image_layouts_loop, Prod.mk.injEq] at hrun
    rw [← hrun.2.2] at hb
    exact Or.inl hb
  | cons r rest ih =>
    intro store st acc barr hgen huniq hstorage hrun b hb
    cases hreq : cgpu_required_image_layout r.descriptor_type with
    | none =>
      simp only [cgpu_transition_image_layouts_loop, hreq] at hrun
      exact ih store st acc barr hgen huniq
        (fun r' hr' => hstorage r' (List.mem_cons_of_mem _ hr')) hrun b hb
    | some new_layout =>
      cases hfind : ipipeline.image_resources.find? (fun ri => ri.binding == r.binding) with
      | none =>
        simp only [cgpu_transition_image_layouts_loop, hreq, hfind, Prod.mk.injEq] at hrun
        exact absurd hrun.1 (by simp)
      | some res_img =>
        cases hlook : cgpu_resolve_image store res_img.image with
        | none =>
          simp only [cgpu_transition_image_layouts_loop, hreq, hfind, hlook,
            Prod.mk.injEq] at hrun
          exact absurd hrun.1 (by simp)
        | some iimage =>
          by_cases hskip : new_layout = iimage.layout
          · simp only [cgpu_transition_image_layouts_loop, hreq, hfind, hlook,
              if_pos hskip] at hrun
            exact ih store st acc barr hgen huniq
              (fun r' hr' => hstorage r' (List.mem_cons_of_mem _ hr')) hrun b hb
          · simp only [cgpu_transition_image_layouts_loop, hreq, hfind, hlook,
              if_neg hskip] at hrun
            rcases hgen with ⟨ii, hii, hiilay, hiinid⟩
            by_cases hres_img : res_img.image = imgH
            · exfalso
              have hL := hstorage r (List.mem_cons_self r rest) new_layout hreq res_img
                hfind hres_img
              rw [hres_img] at hlook
              rw [show cgpu_resolve_image store imgH =
                resource_store_get store imgH from rfl, hii] at hlook
              injection hlook with hlook'
              exact hskip (by rw [hL, ← hlook', hiilay])
            · have hbne : iimage.image ≠ nid := by
                intro e
                exact hres_img (huniq res_img.image iimage hlook e)
              have hgen2 : ∃ ii2, resource_store_get
                  (resource_store_set store res_img.image
                    { iimage with
                        access_mask := cgpu_shader_access_mask r
                        layout := new_layout }) imgH = some ii2 ∧
                  ii2.layout = .VK_IMAGE_LAYOUT_GENERAL ∧ ii2.image = nid := by
                refine ⟨ii, ?_, hiilay, hiinid⟩
                rw [resource_store_get_set_ne store res_img.image _ imgH
                  (fun e => hres_img e.symm)]
                exact hii
              have huniq2 : ∀ h img', resource_store_get
                  (resource_store_set store res_img.image
                    { iimage with
                        access_mask := cgpu_shader_access_mask r
                        layout := new_layout }) h = some img' →
                  img'.image = nid → h = imgH := by
                intro h img' hg hn
                rw [resource_store_get_set] at hg
                by_cases hcase : h = res_img.image
                · rw [if_pos hcase] at hg
                  rw [show cgpu_resolve_image store res_img.image =
                    resource_store_get store res_img.image from rfl] at hlook
                  rw [hlook] at hg
                  injection hg with hg'
                  rw [← hg'] at hn
                  exact absurd hn hbne
                · rw [if_neg hcase] at hg
                  exact huniq h img' hg hn
              have := ih _ st (acc ++
                [{ srcAccessMask := iimage.access_mask
                   dstAccessMask := cgpu_shader_access_mask r
                   oldLayout := iimage.layout
                   newLayout := new_layout
                   image := iimage.image }]) barr hgen2 huniq2
                (fun r' hr' => hstorage r' (List.mem_cons_of_mem _ hr')) hrun b hb
              rcases this with hmem | hne
              · rcases List.mem_append.mp hmem with hacc | hsingle
                · exact Or.inl hacc
                · rw [List.mem_singleton] at hsingle
                  subst hsingle
                  exact Or.inr hbne
              · exact Or.inr hne

/-- C10: a successful `cgpu_cmd_copy_buffer_to_image` records the copy with
the image in the general layout and sets the image's tracked layout to
general afterward, emitting no barrier and leaving the tracked access mask
unchanged; a subsequent dispatch whose shader requires the image in the
general layout (hypothesis `hstorage`) then emits no barrier for it
(hypothesis `huniq` states that no other handle aliases the image's native
id). -/
theorem cgpu_cmd_copy_buffer_to_image_general_layout_no_barrier
    (icommand_buffer_store : resource_store cgpu_icommand_buffer)
    (idevice_store : resource_store cgpu_idevice)
    (ibuffer_store : resource_store cgpu_ibuffer)
    (iimage_store : resource_store cgpu_iimage)
    (ipipeline_store : resource_store cgpu_ipipeline)
    (ishader_store : resource_store cgpu_ishader)
    (command_buffer buffer image : Nat)
    (icommand_buffer : cgpu_icommand_buffer) (idevice : cgpu_idevice)
    (ibuffer : cgpu_ibuffer) (iimage : cgpu_iimage)
    (ipipeline : cgpu_ipipeline) (ishader : cgpu_ishader)
    (hcb : cgpu_resolve_command_buffer icommand_buffer_store command_buffer =
      some icommand_buffer)
    (hdev : cgpu_resolve_device idevice_store icommand_buffer.device = some idevice)
    (hbuf : cgpu_resolve_buffer ibuffer_store buffer = some ibuffer)
    (himg : cgpu_resolve_image iimage_store image = some iimage)
    (hpip : cgpu_resolve_pipeline ipipeline_store icommand_buffer.pipeline = some ipipeline)
    (hsh : cgpu_resolve_shader ishader_store ipipeline.shader = some ishader)
    (hstorage : ∀ r ∈ ishader.reflection.resources, ∀ L,
      cgpu_required_image_layout r.descriptor_type = some L →
      ∀ ri, ipipeline.image_resources.find? (fun q => q.binding == r.binding) = some ri →
      ri.image = image → L = .VK_IMAGE_LAYOUT_GENERAL)
    (huniq : ∀ h img', resource_store_get iimage_store h = some img' →
      img'.image = iimage.image → h = image) :
    cgpu_cmd_copy_buffer_to_image icommand_buffer_store idevice_store ibuffer_store
      iimage_store command_buffer buffer image =
      (.CGPU_OK,
        resource_store_set iimage_store image
          { iimage with layout := .VK_IMAGE_LAYOUT_GENERAL },
        [.vkCmdCopyBufferToImage ibuffer.buffer iimage.image
          .VK_IMAGE_LAYOUT_GENERAL]) ∧
    (∀ st2 trace2,
      cgpu_transition_image_layouts_for_shader ipipeline_store ishader_store
        (resource_store_set iimage_store image
          { iimage with layout := .VK_IMAGE_LAYOUT_GENERAL }) icommand_buffer =
        (.CGPU_OK, st2, trace2) →
      ∀ srcStage dstStage ms bs ibs,
        VkRecordedCmd.vkCmdPipelineBarrier srcStage dstStage ms bs ibs ∈ trace2 →
        ∀ vk ∈ ibs, vk.image ≠ iimage.image) := by
  have himg' : resource_store_get iimage_store image = some iimage := himg
  constructor
  · simp [cgpu_cmd_copy_buffer_to_image, hcb, hdev, hbuf, himg]
  · intro st2 trace2 htrans srcStage dstStage ms bs ibs hmem vk hvk
    rcases hloop : cgpu_transition_image_layouts_loop ipipeline
      ishader.reflection.resources
      (resource_store_set iimage_store image
        { iimage with layout := .VK_IMAGE_LAYOUT_GENERAL }) [] with ⟨r0, st0, barr0⟩
    simp only [cgpu_transition_image_layouts_for_shader, hpip, hsh, hloop] at htrans
    by_cases hr0 : r0 = .CGPU_OK
    · subst hr0
      simp only [ne_eq, not_true_eq_false, if_false, ite_not] at htrans
      have hnob := cgpu_transition_loop_no_barrier_for_general ipipeline image
        iimage.image ishader.reflection.resources
        (resource_store_set iimage_store image
          { iimage with layout := .VK_IMAGE_LAYOUT_GENERAL }) st0 [] barr0
        ⟨{ iimage with layout := .VK_IMAGE_LAYOUT_GENERAL },
          resource_store_get_set_self iimage_store image iimage _ himg', rfl, rfl⟩
        (by
          intro h img' hg hn
          rw [resource_store_get_set] at hg
          by_cases hcase : h = image
          · exact hcase
          · rw [if_neg hcase] at hg
            exact huniq h img' hg hn)
        hstorage hloop
      by_cases hlen : barr0.length > 0
      · rw [if_pos hlen] at htrans
        simp only [Prod.mk.injEq] at htrans
        rw [← htrans.2.2] at hmem
        rw [List.mem_singleton] at hmem
        injection hmem with h1 h2 h3 h4 h5
        rw [h5] at hvk
        rcases hnob vk hvk with hfalse | hne
        · cases hfalse
        · exact hne
      · rw [if_neg hlen] at htrans
        simp only [Prod.mk.injEq] at htrans
        rw [← htrans.2.2] at hmem
        cases hmem
    · rw [if_pos hr0] at htrans
      simp only [Prod.mk.injEq] at htrans
      exact absurd htrans.1 hr0

/-- Witness for C10: copying into the image bound at the storage-image
binding records the copy in the general layout, updates the tracked layout,
and the following dispatch emits no barrier for that image. -/
theorem cgpu_cmd_copy_buffer_to_image_general_layout_no_barrier_witness :
    cgpu_cmd_copy_buffer_to_image wcommand_buffer_store wdevice_store wbuffer_store
      wimage_store 4 6 5 =
      (.CGPU_OK,
        resource_store_set wimage_store 5
          { wimage with layout := .VK_IMAGE_LAYOUT_GENERAL },
        [.vkCmdCopyBufferToImage wbuffer.buffer wimage.image
          .VK_IMAGE_LAYOUT_GENERAL]) ∧
    (∀ st2 trace2,
      cgpu_transition_image_layouts_for_shader wpipeline_store wshader_store
        (resource_store_set wimage_store 5
          { wimage with layout := .VK_IMAGE_LAYOUT_GENERAL }) wcommand_buffer =
        (.CGPU_OK, st2, trace2) →
      ∀ srcStage dstStage ms bs ibs,
        VkRecordedCmd.vkCmdPipelineBarrier srcStage dstStage ms bs ibs ∈ trace2 →
        ∀ vk ∈ ibs, vk.image ≠ wimage.image) :=
  cgpu_cmd_copy_buffer_to_image_general_layout_no_barrier wcommand_buffer_store
    wdevice_store wbuffer_store wimage_store wpipeline_store wshader_store 4 6 5
    wcommand_buffer wdevice wbuffer wimage wpipeline wshader
    (by decide) (by decide) (by decide) (by decide) (by decide) (by decide)
    (by
      intro r hr L hL ri _ _
      simp only [wshader, wrefl_storage_image, List.mem_singleton] at hr
      subst hr
      simp only [cgpu_required_image_layout, Option.some.injEq] at hL
      exact hL.symm)
    (by
      intro h img' hg _
      by_cases h5 : h = 5
      · exact h5
      · rw [show resource_store_get wimage_store h =
            List.lookup h [(5, wimage)] from rfl,
          lookup_cons_ne h 5 wimage [] h5] at hg
        simp [List.lookup] at hg)

/-- C1: `cgpu_update_resources` never writes the pipeline's cached
image-resource table.  A successful call with a nonempty image-binding list
returns CGPU_OK yet leaves the cached table (here empty) unchanged, so the
table does not equal the image-binding list that was passed in — the
snapshot the specification describes is missing from the code
(cgpu.c lines 1981-2077 contain no write to `ipipeline->image_resources` or
`ipipeline->image_resource_count`). -/
theorem cgpu_update_resources_no_image_snapshot :
    (cgpu_update_resources wdevice_store wpipeline_empty_store wbuffer_store wimage_store
      1 2 [] [{ binding := 0, image := 5 }]).1 = .CGPU_OK ∧
    (cgpu_update_resources wdevice_store wpipeline_empty_store wbuffer_store wimage_store
      1 2 [] [{ binding := 0, image := 5 }]).2.1 = wpipeline_empty_store ∧
    (cgpu_resolve_pipeline
      (cgpu_update_resources wdevice_store wpipeline_empty_store wbuffer_store wimage_store
        1 2 [] [{ binding := 0, image := 5 }]).2.1 2).map
      cgpu_ipipeline.image_resources = some [] ∧
    ([] : List cgpu_shader_resource_image) ≠ [{ binding := 0, image := 5 }] := by
  decide

/-- C2: the allocation-failure branch of `cgpu_create_command_buffer`
(cgpu.c lines 2108-2110) returns its error code without freeing the
tentatively allocated handle, so the handle returned by the failed create
is still resolvable afterward.  (The reflection-overflow branch of
`cgpu_create_pipeline`, cgpu.c lines 1689-1692, has the same omission.) -/
theorem cgpu_create_command_buffer_failed_handle_still_resolvable :
    (cgpu_create_command_buffer wdevice_store { slots := [], next := 1 } 1
      wcommand_buffer 31 .VK_ERROR).1 = .CGPU_FAIL_UNABLE_TO_ALLOCATE_COMMAND_BUFFER ∧
    (cgpu_create_command_buffer wdevice_store { slots := [], next := 1 } 1
      wcommand_buffer 31 .VK_ERROR).2.1 = 1 ∧
    (cgpu_resolve_command_buffer
      (cgpu_create_command_buffer wdevice_store { slots := [], next := 1 } 1
        wcommand_buffer 31 .VK_ERROR).2.2 1).isSome = true := by
  decide

/-- C6 counterexample: an image created with usage
transfer-src|transfer-dst — a pure transfer usage per the claim — gets
optimal tiling, not linear, because cgpu.c lines 1427-1430 test the usage
set for equality with each single transfer flag. -/
theorem cgpu_create_image_transfer_combo_not_linear :
    ((cgpu_create_image wdevice_store { slots := [], next := 1 } 1 4 4
      (CGPU_IMAGE_USAGE_FLAG_TRANSFER_SRC ||| CGPU_IMAGE_USAGE_FLAG_TRANSFER_DST)
      wimage 41 42 16 .VK_SUCCESS .VK_SUCCESS).2.2.2).map VkImageCreateInfo.tiling =
      some .VK_IMAGE_TILING_OPTIMAL ∧
    VkImageTiling.VK_IMAGE_TILING_OPTIMAL ≠ .VK_IMAGE_TILING_LINEAR := by
  decide

/-- C6 amended: `cgpu_create_image` chooses linear tiling exactly when the
usage flag set equals the transfer-src flag alone or the transfer-dst flag
alone; any other usage set — including transfer-src|transfer-dst — gets
optimal tiling. -/
theorem cgpu_create_image_linear_tiling_iff_single_transfer_flag
    (idevice_store : resource_store cgpu_idevice)
    (iimage_store : resource_store cgpu_iimage)
    (device width height usage : Nat) (uninit : cgpu_iimage)
    (native_image native_view alloc_size : Nat)
    (create_result view_result : VkResult)
    (idevice : cgpu_idevice) (info : VkImageCreateInfo)
    (hdev : cgpu_resolve_device idevice_store device = some idevice)
    (hinfo : (cgpu_create_image idevice_store iimage_store device width height usage
      uninit native_image native_view alloc_size create_result view_result).2.2.2 =
      some info) :
    info.tiling = .VK_IMAGE_TILING_LINEAR ↔
      usage = CGPU_IMAGE_USAGE_FLAG_TRANSFER_SRC ∨
      usage = CGPU_IMAGE_USAGE_FLAG_TRANSFER_DST := by
  have htiling : info.tiling = cgpu_select_image_tiling usage := by
    simp only [cgpu_create_image, hdev] at hinfo
    by_cases h1 : create_result = .VK_SUCCESS <;>
      by_cases h2 : view_result = .VK_SUCCESS <;>
      simp only [h1, h2, ne_eq, not_true_eq_false, not_false_iff, if_true, if_false,
        ite_true, ite_false, Option.some.injEq] at hinfo <;>
      simp [← hinfo]
  rw [htiling, cgpu_select_image_tiling]
  by_cases hcase : usage = CGPU_IMAGE_USAGE_FLAG_TRANSFER_SRC ∨
      usage = CGPU_IMAGE_USAGE_FLAG_TRANSFER_DST
  · simp [hcase]
  · simp [hcase]

/-- Witness for the amended C6: usage equal to exactly the transfer-src flag
yields linear tiling. -/
theorem cgpu_create_image_linear_tiling_iff_single_transfer_flag_witness :
    VkImageCreateInfo.tiling
      { tiling := .VK_IMAGE_TILING_LINEAR, usage := VK_IMAGE_USAGE_TRANSFER_SRC_BIT,
        initialLayout := .VK_IMAGE_LAYOUT_UNDEFINED } = .VK_IMAGE_TILING_LINEAR ↔
      CGPU_IMAGE_USAGE_FLAG_TRANSFER_SRC = CGPU_IMAGE_USAGE_FLAG_TRANSFER_SRC ∨
      CGPU_IMAGE_USAGE_FLAG_TRANSFER_SRC = CGPU_IMAGE_USAGE_FLAG_TRANSFER_DST :=
  cgpu_create_image_linear_tiling_iff_single_transfer_flag wdevice_store
    { slots := [], next := 1 } 1 4 4 CGPU_IMAGE_USAGE_FLAG_TRANSFER_SRC wimage
    41 42 16 .VK_SUCCESS .VK_SUCCESS wdevice
    { tiling := .VK_IMAGE_TILING_LINEAR, usage := VK_IMAGE_USAGE_TRANSFER_SRC_BIT,
      initialLayout := .VK_IMAGE_LAYOUT_UNDEFINED }
    (by decide) (by decide)

/-- C7: inside `cgpu_create_device`, a failure to create the default sampler
is reported with CGPU_FAIL_CAN_NOT_CREATE_COMMAND_POOL — the same error code
as a command-pool creation failure (cgpu.c line 1074) — while query-pool and
allocator failures do get their own codes.  This contradicts the claim that
every construction phase has a distinct code. -/
theorem cgpu_create_device_sampler_failure_reuses_command_pool_error :
    (cgpu_create_device { slots := [], next := 1 } 0 1 true 2 9 wdevice_extensions
      [6] wlimits wdevice .VK_SUCCESS .VK_SUCCESS .VK_ERROR .VK_SUCCESS .VK_SUCCESS).1 =
      .CGPU_FAIL_CAN_NOT_CREATE_COMMAND_POOL ∧
    (cgpu_create_device { slots := [], next := 1 } 0 1 true 2 9 wdevice_extensions
      [6] wlimits wdevice .VK_SUCCESS .VK_ERROR .VK_SUCCESS .VK_SUCCESS .VK_SUCCESS).1 =
      .CGPU_FAIL_CAN_NOT_CREATE_COMMAND_POOL ∧
    (cgpu_create_device { slots := [], next := 1 } 0 1 true 2 9 wdevice_extensions
      [6] wlimits wdevice .VK_SUCCESS .VK_SUCCESS .VK_SUCCESS .VK_ERROR .VK_SUCCESS).1 =
      .CGPU_FAIL_UNABLE_TO_CREATE_QUERY_POOL ∧
    (cgpu_create_device { slots := [], next := 1 } 0 1 true 2 9 wdevice_extensions
      [6] wlimits wdevice .VK_SUCCESS .VK_SUCCESS .VK_SUCCESS .VK_SUCCESS .VK_ERROR).1 =
      .CGPU_FAIL_UNABLE_TO_INITIALIZE_VMA := by
  decide

end Cgpu
